import Mathlib

/-!
Shallow embedding of the envoy-gloo HTTP transformation filter core:

* `src/source/extensions/filters/http/transformation/inja_transformer.cc`
  (TransformerInstance callbacks, InjaTransformer construction and transform)
* `src/source/common/http/filter/transformation_filter.cc`
  (TransformationFilter decode/encode state machine)

Machine strings and buffers are modelled as Lean `String`/`List Nat`
(one `Nat` per byte), machine integers as `Int`/`Nat` with explicit
truncation where the C++ narrows.
-/

namespace TransformationProof

/-! ## Part 1: TransformerInstance::substring_callback

Source: inja_transformer.cc lines 284-322.  The C++ reads the start
argument with `get_ref<const int64_t&>` into a variable declared
`int start`, so the 64-bit value is narrowed to 32-bit two's complement.
The length argument stays `int64_t`.  Strings are byte strings; we model
one byte per list element. -/

/-- Two's-complement truncation of an integer to a signed 32-bit `int`,
as performed by the C++ narrowing `int start = <int64_t value>;`. -/
def int32_trunc (x : Int) : Int := (x + 2 ^ 31) % 2 ^ 32 - 2 ^ 31

/-- An argument as the callback sees it: either a JSON value whose stored
64-bit integer is read by `get_ref<const int64_t&>`, or any value for
which that read throws (float, string, ...). -/
inductive JsonArg where
  | int (i : Int)
  | nonInt
deriving DecidableEq, Repr

/-- Common part of substring_callback after both integer arguments were
read: the guard chain and `input.substr` calls of lines 307-321.
`substring_len` is `-1` for the two-argument form (line 298).
The comparison `start + substring_len > input_len` is `int64_t`
arithmetic in the source; the model computes it in `Int`, so it is
faithful only where the C++ sum does not overflow. -/
def substring_core (s : List Nat) (start64 : Int) (substring_len : Int) : List Nat :=
  let start : Int := int32_trunc start64
  let input_len : Int := (s.length : Int)
  if start < 0 ∨ start ≥ input_len then []
  else if substring_len ≤ 0 ∨ start + substring_len > input_len then s.drop start.toNat
  else (s.drop start.toNat).take substring_len.toNat

/-- `substring(s, start)` — the two-argument registration (arity 2). -/
def substring_callback2 (s : List Nat) (a1 : JsonArg) : List Nat :=
  match a1 with
  | .nonInt => []
  | .int st => substring_core s st (-1)

/-- `substring(s, start, len)` — the three-argument registration
(arity 3).  The start argument is read first; a throwing read of either
integer argument yields the empty string. -/
def substring_callback3 (s : List Nat) (a1 a2 : JsonArg) : List Nat :=
  match a1 with
  | .nonInt => []
  | .int st =>
    match a2 with
    | .nonInt => []
    | .int ln => substring_core s st ln

theorem int32_trunc_eq_of_range (x : Int) (h1 : -(2 ^ 31) ≤ x) (h2 : x < 2 ^ 31) :
    int32_trunc x = x := by
  unfold int32_trunc
  have hnn : (0 : Int) ≤ x + 2 ^ 31 := by omega
  have hlt : x + 2 ^ 31 < 2 ^ 32 := by omega
  rw [Int.emod_eq_of_lt hnn hlt]
  omega

/-- C7 counterexample: with `s = "ab"` (bytes `[97, 98]`) and
`start = 2^32 = 4294967296`, the claim requires the empty string because
`start ≥ len(s)`, but the C++ narrows `start` to the 32-bit value `0` and
returns the whole string. -/
theorem substring_claim_counterexample :
    (2 : Int) ≤ 2 ^ 32 ∧ substring_callback2 [97, 98] (.int (2 ^ 32)) = [97, 98] := by
  constructor
  · decide
  · rfl

/-- C7 (amended): the claimed substring semantics hold for every start
argument representable in the 32-bit `int` the code narrows to
(`-2^31 ≤ start < 2^31`) and as long as `start + len` does not overflow
`int64_t`; the code truncates larger start arguments to 32 bits first.
Under those bounds: a non-integer argument yields `""`; `start < 0` or
`start ≥ len(s)` yields `""`; otherwise the two-argument form yields the
byte suffix from `start`, the three-argument form yields that same
suffix when `len ≤ 0` or `start + len > len(s)`, and the exact window of
`len` bytes from `start` otherwise. -/
theorem substring_callback_spec (s : List Nat) (st ln : Int)
    (h1 : -(2 ^ 31) ≤ st) (h2 : st < 2 ^ 31) (_h3 : st + ln < 2 ^ 63) :
    (substring_callback2 s .nonInt = [] ∧
      substring_callback3 s .nonInt (.int ln) = [] ∧
      substring_callback3 s (.int st) .nonInt = []) ∧
    ((st < 0 ∨ st ≥ (s.length : Int)) →
      substring_callback2 s (.int st) = [] ∧
      substring_callback3 s (.int st) (.int ln) = []) ∧
    (0 ≤ st → st < (s.length : Int) →
      substring_callback2 s (.int st) = s.drop st.toNat ∧
      ((ln ≤ 0 ∨ st + ln > (s.length : Int)) →
        substring_callback3 s (.int st) (.int ln) = s.drop st.toNat) ∧
      (0 < ln → st + ln ≤ (s.length : Int) →
        substring_callback3 s (.int st) (.int ln) = (s.drop st.toNat).take ln.toNat)) := by
  have htr : int32_trunc st = st := int32_trunc_eq_of_range st h1 h2
  refine ⟨⟨rfl, rfl, rfl⟩, ?_, ?_⟩
  · intro hout
    constructor
    · simp only [substring_callback2, substring_core, htr]
      rw [if_pos hout]
    · simp only [substring_callback3, substring_core, htr]
      rw [if_pos hout]
  · intro hge hlt
    have hnot : ¬(st < 0 ∨ st ≥ (s.length : Int)) := by omega
    refine ⟨?_, ?_, ?_⟩
    · simp only [substring_callback2, substring_core, htr]
      rw [if_neg hnot, if_pos (by omega : (-1 : Int) ≤ 0 ∨ st + -1 > (s.length : Int))]
    · intro hsuf
      simp only [substring_callback3, substring_core, htr]
      rw [if_neg hnot, if_pos hsuf]
    · intro hpos hfits
      have hnot2 : ¬(ln ≤ 0 ∨ st + ln > (s.length : Int)) := by omega
      simp only [substring_callback3, substring_core, htr]
      rw [if_neg hnot, if_neg hnot2]

/-- Witness for `substring_callback_spec` at `s = [10, 20, 30]`,
`start = 1`, `len = 1`. -/
theorem substring_callback_spec_witness :
    (substring_callback2 [10, 20, 30] .nonInt = [] ∧
      substring_callback3 [10, 20, 30] .nonInt (.int 1) = [] ∧
      substring_callback3 [10, 20, 30] (.int 1) .nonInt = []) ∧
    (((1 : Int) < 0 ∨ (1 : Int) ≥ (([10, 20, 30] : List Nat).length : Int)) →
      substring_callback2 [10, 20, 30] (.int 1) = [] ∧
      substring_callback3 [10, 20, 30] (.int 1) (.int 1) = []) ∧
    ((0 : Int) ≤ 1 → (1 : Int) < (([10, 20, 30] : List Nat).length : Int) →
      substring_callback2 [10, 20, 30] (.int 1) = ([10, 20, 30] : List Nat).drop (1 : Int).toNat ∧
      (((1 : Int) ≤ 0 ∨ (1 : Int) + 1 > (([10, 20, 30] : List Nat).length : Int)) →
        substring_callback3 [10, 20, 30] (.int 1) (.int 1) =
          ([10, 20, 30] : List Nat).drop (1 : Int).toNat) ∧
      ((0 : Int) < 1 → (1 : Int) + 1 ≤ (([10, 20, 30] : List Nat).length : Int) →
        substring_callback3 [10, 20, 30] (.int 1) (.int 1) =
          (([10, 20, 30] : List Nat).drop (1 : Int).toNat).take (1 : Int).toNat)) :=
  substring_callback_spec [10, 20, 30] 1 1 (by decide) (by decide) (by decide)

/-! ## Part 2: TransformerInstance::replace_with_random_callback

Source: inja_transformer.cc lines 324-348.  `random_for_pattern` draws
two `uint64_t` values from the instance's RNG on the first use of a
pattern, stores them little-endian in a 16-byte array (`random[0] = low;
random[1] = high` on the little-endian platforms Envoy targets), encodes
them as unpadded Base64 and memoizes the result per pattern.
`replace_with_random_callback` replaces every occurrence of the pattern
in the source string (absl::StrReplaceAll; empty patterns are ignored by
absl and replace nothing). -/

/-- The standard Base64 alphabet used by `Base64::encode`. -/
def base64Alphabet : List Char :=
  ("ABCDEFGHIJKLMNOPQRSTUVWXYZabcdefghijklmnopqrstuvwxyz0123456789+/").toList

/-- Character for a 6-bit group. -/
def b64char (n : Nat) : Char := base64Alphabet.getD n 'A'

/-- `Base64::encode(data, len, false)`: unpadded standard Base64 of a
byte list. -/
def base64EncodeNoPad : List Nat → List Char
  | [] => []
  | [b0] => [b64char (b0 / 4), b64char (b0 % 4 * 16)]
  | [b0, b1] =>
      [b64char (b0 / 4), b64char (b0 % 4 * 16 + b1 / 16), b64char (b1 % 16 * 4)]
  | b0 :: b1 :: b2 :: rest =>
      b64char (b0 / 4) :: b64char (b0 % 4 * 16 + b1 / 16) ::
        b64char (b1 % 16 * 4 + b2 / 64) :: b64char (b2 % 64) :: base64EncodeNoPad rest

/-- Little-endian byte serialization of a `uint64_t` value, as produced
by `reinterpret_cast<char *>` of the `uint64_t random[2]` array. -/
def leBytes8 (x : Nat) : List Nat := (List.range 8).map fun i => x / 256 ^ i % 256

/-- The Base64-encoded 128-bit random replacement built from the two RNG
draws `high` (drawn first) and `low` (drawn second): the byte image of
the array `{low, high}`. -/
def randomValue (high low : Nat) : List Char :=
  base64EncodeNoPad (leBytes8 low ++ leBytes8 high)

/-- absl::StrReplaceAll with a single (pattern, replacement) pair:
replace left-to-right, non-overlapping, all occurrences.  The
`replaceAll` wrapper handles absl's ignoring of empty patterns. -/
def replaceAllGo (pat repl : List Char) : List Char → List Char
  | [] => []
  | c :: rest =>
    if pat.isPrefixOf (c :: rest) then
      repl ++ replaceAllGo pat repl (rest.drop (pat.length - 1))
    else
      c :: replaceAllGo pat repl rest
termination_by l => l.length
decreasing_by
  · simp only [List.length_drop, List.length_cons]
    omega
  · simp [List.length_cons]

/-- absl::StrReplaceAll: empty patterns replace nothing. -/
def replaceAll (s pat repl : List Char) : List Char :=
  if pat = [] then s else replaceAllGo pat repl s

/-- Per-instance mutable state used by the random-replacement callback:
the `pattern_replacements_` memo and the position in the RNG stream.
The host RNG is modelled as the stream `rng : Nat → Nat` of successive
`rng_.random()` results. -/
structure RandomCallbackState where
  pattern_replacements : List (List Char × List Char)
  rng_count : Nat
deriving DecidableEq, Repr

/-- The state of a freshly constructed TransformerInstance: empty memo,
no RNG draws consumed. -/
def freshRandomState : RandomCallbackState := ⟨[], 0⟩

/-- Association-list lookup for the memo. -/
def memoLookup (memo : List (List Char × List Char)) (p : List Char) :
    Option (List Char) :=
  match memo with
  | [] => none
  | (q, v) :: rest => if q = p then some v else memoLookup rest p

/-- `TransformerInstance::random_for_pattern` (lines 334-348): return
the memoized replacement for `pattern`, generating and memoizing a fresh
one from two RNG draws on first use. -/
def random_for_pattern (rng : Nat → Nat) (st : RandomCallbackState)
    (pattern : List Char) : List Char × RandomCallbackState :=
  match memoLookup st.pattern_replacements pattern with
  | some v => (v, st)
  | none =>
    let high := rng st.rng_count
    let low := rng (st.rng_count + 1)
    let v := randomValue high low
    (v, ⟨st.pattern_replacements ++ [(pattern, v)], st.rng_count + 2⟩)

/-- `TransformerInstance::replace_with_random_callback` (lines 324-332):
replace all occurrences of the pattern in the source with the
(memoized) random value. -/
def replace_with_random_callback (rng : Nat → Nat) (st : RandomCallbackState)
    (source pattern : List Char) : List Char × RandomCallbackState :=
  let r := random_for_pattern rng st pattern
  (replaceAll source pattern r.1, r.2)

/-- A call trace against one instance: run the callback over a list of
(source, pattern) arguments, threading the instance state, and collect
the outputs. -/
def runReplaceCalls (rng : Nat → Nat) (st : RandomCallbackState) :
    List (List Char × List Char) → List (List Char) × RandomCallbackState
  | [] => ([], st)
  | (src, pat) :: rest =>
    let r := replace_with_random_callback rng st src pat
    let rr := runReplaceCalls rng r.2 rest
    (r.1 :: rr.1, rr.2)

theorem memoLookup_append_of_some (m l : List (List Char × List Char))
    (p v : List Char) (h : memoLookup m p = some v) :
    memoLookup (m ++ l) p = some v := by
  induction m with
  | nil => simp [memoLookup] at h
  | cons a rest ih =>
    obtain ⟨q, w⟩ := a
    simp only [memoLookup, List.cons_append] at h ⊢
    by_cases hq : q = p
    · rw [if_pos hq] at h ⊢; exact h
    · rw [if_neg hq] at h ⊢; exact ih h

theorem memoLookup_append_single_none (m : List (List Char × List Char))
    (p v : List Char) (h : memoLookup m p = none) :
    memoLookup (m ++ [(p, v)]) p = some v := by
  induction m with
  | nil => simp [memoLookup]
  | cons a rest ih =>
    obtain ⟨q, w⟩ := a
    simp only [memoLookup, List.cons_append] at h ⊢
    by_cases hq : q = p
    · rw [if_pos hq] at h; exact absurd h (by simp)
    · rw [if_neg hq] at h ⊢; exact ih h

theorem random_for_pattern_memo_mono (rng : Nat → Nat) (st : RandomCallbackState)
    (p q v : List Char) (h : memoLookup st.pattern_replacements p = some v) :
    memoLookup ((random_for_pattern rng st q).2).pattern_replacements p = some v := by
  unfold random_for_pattern
  cases hq : memoLookup st.pattern_replacements q with
  | some w => simpa using h
  | none => simpa using memoLookup_append_of_some _ _ _ _ h

theorem random_for_pattern_memo_self (rng : Nat → Nat) (st : RandomCallbackState)
    (p : List Char) :
    memoLookup ((random_for_pattern rng st p).2).pattern_replacements p =
      some ((random_for_pattern rng st p).1) := by
  unfold random_for_pattern
  cases hp : memoLookup st.pattern_replacements p with
  | some w => simpa using hp
  | none => simpa using memoLookup_append_single_none _ _ _ hp

theorem runReplaceCalls_memo_mono (rng : Nat → Nat)
    (calls : List (List Char × List Char)) :
    ∀ (st : RandomCallbackState) (p v : List Char),
      memoLookup st.pattern_replacements p = some v →
      memoLookup ((runReplaceCalls rng st calls).2).pattern_replacements p = some v := by
  induction calls with
  | nil => intro st p v h; simpa [runReplaceCalls] using h
  | cons c rest ih =>
    intro st p v h
    obtain ⟨src, pat⟩ := c
    simp only [runReplaceCalls]
    exact ih _ _ _ (random_for_pattern_memo_mono rng st p pat v h)

/-- Every output of a call trace is `replaceAll` of its source with the
value the final memo holds for its pattern. -/
theorem runReplaceCalls_output_memo (rng : Nat → Nat) :
    ∀ (calls : List (List Char × List Char)) (st : RandomCallbackState) (i : Nat),
      i < calls.length →
      ∃ v, memoLookup ((runReplaceCalls rng st calls).2).pattern_replacements
              (calls.getD i ([], [])).2 = some v ∧
           (runReplaceCalls rng st calls).1.getD i [] =
              replaceAll (calls.getD i ([], [])).1 (calls.getD i ([], [])).2 v := by
  intro calls
  induction calls with
  | nil => intro st i hi; simp at hi
  | cons c rest ih =>
    intro st i hi
    obtain ⟨src, pat⟩ := c
    match i with
    | 0 =>
      refine ⟨(random_for_pattern rng st pat).1, ?_, ?_⟩
      · simp only [runReplaceCalls, List.getD_cons_zero]
        exact runReplaceCalls_memo_mono rng rest _ _ _
          (random_for_pattern_memo_self rng st pat)
      · simp [runReplaceCalls, replace_with_random_callback]
    | Nat.succ n =>
      have hn : n < rest.length := by simpa using hi
      have := ih (replace_with_random_callback rng st src pat).2 n hn
      simpa [runReplaceCalls, replace_with_random_callback] using this

/-- C8: within one Transformer Instance (one message), any two
`replace_with_random` calls in a trace that pass equal patterns replace
every occurrence of the pattern with the *same* replacement value,
whatever their source strings are; and on a freshly constructed
instance the replacement for a pattern is generated anew from that
instance's own first two RNG draws (so distinct instances draw fresh
values). -/
theorem replace_with_random_stable (rng : Nat → Nat)
    (calls : List (List Char × List Char)) (i j : Nat)
    (hi : i < calls.length) (hj : j < calls.length)
    (hp : (calls.getD i ([], [])).2 = (calls.getD j ([], [])).2) :
    (∃ v, (runReplaceCalls rng freshRandomState calls).1.getD i [] =
            replaceAll (calls.getD i ([], [])).1 (calls.getD i ([], [])).2 v ∧
          (runReplaceCalls rng freshRandomState calls).1.getD j [] =
            replaceAll (calls.getD j ([], [])).1 (calls.getD j ([], [])).2 v) ∧
    (∀ src pat, (replace_with_random_callback rng freshRandomState src pat).1 =
        replaceAll src pat (randomValue (rng 0) (rng 1))) := by
  constructor
  · obtain ⟨v, hvm, hvo⟩ := runReplaceCalls_output_memo rng calls freshRandomState i hi
    obtain ⟨w, hwm, hwo⟩ := runReplaceCalls_output_memo rng calls freshRandomState j hj
    rw [hp] at hvm
    rw [hvm] at hwm
    obtain rfl : v = w := by injection hwm
    exact ⟨v, hvo, hwo⟩
  · intro src pat
    simp [replace_with_random_callback, random_for_pattern, freshRandomState, memoLookup]

/-- Witness for `replace_with_random_stable`: two calls with pattern
`"X"` and different sources on one instance. -/
theorem replace_with_random_stable_witness :
    (∃ v, (runReplaceCalls (fun n => n) freshRandomState
              [("aXa".toList, "X".toList), ("bXb".toList, "X".toList)]).1.getD 0 [] =
            replaceAll (([("aXa".toList, "X".toList), ("bXb".toList, "X".toList)]).getD
                0 ([], [])).1
              (([("aXa".toList, "X".toList), ("bXb".toList, "X".toList)]).getD
                0 ([], [])).2 v ∧
          (runReplaceCalls (fun n => n) freshRandomState
              [("aXa".toList, "X".toList), ("bXb".toList, "X".toList)]).1.getD 1 [] =
            replaceAll (([("aXa".toList, "X".toList), ("bXb".toList, "X".toList)]).getD
                1 ([], [])).1
              (([("aXa".toList, "X".toList), ("bXb".toList, "X".toList)]).getD
                1 ([], [])).2 v) ∧
    (∀ src pat,
      (replace_with_random_callback (fun n => n) freshRandomState src pat).1 =
        replaceAll src pat (randomValue ((fun n => n) 0) ((fun n => n) 1))) :=
  replace_with_random_stable (fun n => n)
    [("aXa".toList, "X".toList), ("bXb".toList, "X".toList)] 0 1
    (by decide) (by decide) (by decide)

/-! ## Part 3: InjaTransformer (config-time object and per-message transform)

Source: inja_transformer.cc lines 389-479 (constructor and
validate_templates) and 480-689 (transform).  Header maps are modelled
as ordered lists of (name, value) pairs; `Http::LowerCaseString`
lowercases configured names.  Rendering a compiled template against the
per-message TransformerInstance is abstracted as a function
`render : String → String` from template source text to output
(deterministic within one instance, §8 of the spec); the serialized
merged JSON body (`json_body.dump()`) is abstracted as a string
parameter.  Template parsing is deterministic, so for a transformer
whose constructor validated every template the runtime re-parse cannot
fail; the model elides the rethrow branches and instead counts the
`instance.parse` invocations that the transform performs. -/

/-- `Http::LowerCaseString`. -/
def lowerName (s : String) : String := String.mk (s.data.map Char.toLower)

/-- `SoloHttpFilterNames::get().Transformation`, the filter's canonical
metadata namespace (defined in solo_well_known_names.h, outside this
repository slice). -/
def soloTransformationFilterName : String := "io.solo.transformation"

/-- Remove every header with the given (already lowercased) name —
`HeaderMap::remove`. -/
def removeHeader : List (String × String) → String → List (String × String)
  | [], _ => []
  | kv :: rest, n =>
    if kv.1 = n then removeHeader rest n else kv :: removeHeader rest n

/-- The values carried by headers of the given name, in map order. -/
def entriesFor : List (String × String) → String → List String
  | [], _ => []
  | kv :: rest, n =>
    if kv.1 = n then kv.2 :: entriesFor rest n else entriesFor rest n

/-- The `body_transformation` oneof of the TransformationTemplate proto. -/
inductive BodyTransformationCase where
  | kBody (text : String)
  | kMergeExtractorsToBody
  | kPassthrough
  | bodyTransformationNotSet
deriving DecidableEq, Repr

/-- `parse_body_behavior`. -/
inductive ParseBodyBehavior where
  | dontParse
  | parseAsJson
deriving DecidableEq, Repr

/-- The TransformationTemplate proto fields the transformer reads.
`headers` is the proto map in its iteration order;
`dynamic_metadata_values` entries are (metadata_namespace, key, text). -/
structure TransformationTemplate where
  headers : List (String × String)
  headers_to_remove : List String
  headers_to_append : List (String × String)
  dynamic_metadata_values : List (String × String × String)
  body_transformation : BodyTransformationCase
  parse_body_behavior : ParseBodyBehavior
  ignore_error_on_parse : Bool
  advanced_templates : Bool
deriving DecidableEq, Repr

/-- Every template source string the configuration carries, in the
order validate_templates visits them (headers, headers_to_append,
dynamic_metadata_values, body). -/
def templateSources (t : TransformationTemplate) : List String :=
  t.headers.map (·.2) ++ t.headers_to_append.map (·.2) ++
    t.dynamic_metadata_values.map (fun v => v.2.2) ++
    (match t.body_transformation with
     | .kBody text => [text]
     | _ => [])

/-- `InjaTransformer::validate_templates` (lines 429-479): parse every
configured template against an empty TransformerInstance; any parse
failure throws.  `pOk` abstracts "this source parses". -/
def validate_templates (pOk : String → Bool) (t : TransformationTemplate) : Bool :=
  t.headers.all (fun kv => pOk kv.2) &&
  t.headers_to_append.all (fun kv => pOk kv.2) &&
  t.dynamic_metadata_values.all (fun v => pOk v.2.2) &&
  (match t.body_transformation with
   | .kBody text => pOk text
   | _ => true)

/-- Config-time transformer object: keeps the proto and the
`merged_extractors_to_body_` flag set by the constructor switch
(lines 407-421).  No compiled template is retained. -/
structure InjaTransformer where
  transformation : TransformationTemplate
  merged_extractors_to_body : Bool
deriving DecidableEq, Repr

/-- The InjaTransformer constructor (lines 389-422): validate_templates
throws on any parse failure, rejecting the whole Transformation
(`none`). -/
def mkInjaTransformer (pOk : String → Bool) (t : TransformationTemplate) :
    Option InjaTransformer :=
  if validate_templates pOk t then
    some ⟨t, match t.body_transformation with
             | .kMergeExtractorsToBody => true
             | _ => false⟩
  else none

/-- The rendered header-set pairs of the transform's headers loop
(lines 558-569): lowercased name and rendered output. -/
def renderedSets (t : TransformationTemplate) (render : String → String) :
    List (String × String) :=
  t.headers.map fun kv => (lowerName kv.1, render kv.2)

/-- The lowercased headers_to_remove names (lines 571-576). -/
def loweredRemoves (t : TransformationTemplate) : List String :=
  t.headers_to_remove.map lowerName

/-- The rendered header-append pairs (lines 578-590, rendered at
lines 669-676). -/
def renderedAppends (t : TransformationTemplate) (render : String → String) :
    List (String × String) :=
  t.headers_to_append.map fun kv => (lowerName kv.1, render kv.2)

/-- Headers transform, set phase (lines 652-662): for each entry remove
all existing headers with the name, then add one copy when the rendered
output is non-empty. -/
def applyHeaderSets (hm : List (String × String)) :
    List (String × String) → List (String × String)
  | [] => hm
  | nv :: rest =>
    applyHeaderSets
      (if nv.2 = "" then removeHeader hm nv.1
       else removeHeader hm nv.1 ++ [(nv.1, nv.2)]) rest

/-- Headers transform, remove phase (lines 664-666). -/
def applyHeaderRemoves (hm : List (String × String)) :
    List String → List (String × String)
  | [] => hm
  | n :: rest => applyHeaderRemoves (removeHeader hm n) rest

/-- Headers transform, append phase (lines 669-676): add one copy per
non-empty rendered output, leaving existing headers alone. -/
def applyHeaderAppends (hm : List (String × String)) :
    List (String × String) → List (String × String)
  | [] => hm
  | nv :: rest =>
    applyHeaderAppends (if nv.2 = "" then hm else hm ++ [(nv.1, nv.2)]) rest

/-- The header map after the three header phases, before body
replacement. -/
def transformedHeaders (t : TransformationTemplate) (render : String → String)
    (hm0 : List (String × String)) : List (String × String) :=
  applyHeaderAppends
    (applyHeaderRemoves (applyHeaderSets hm0 (renderedSets t render))
      (loweredRemoves t))
    (renderedAppends t render)

/-- `maybe_body` (lines 629-638): the body template's render when
`body` is configured, else the serialized merged JSON when
`merge_extractors_to_body` set the constructor flag, else none. -/
def maybeBody (t : TransformationTemplate) (render : String → String)
    (mergedBodyDump : String) : Option String :=
  match t.body_transformation with
  | .kBody text => some (render text)
  | .kMergeExtractorsToBody => some mergedBodyDump
  | _ => none

/-- Whether the transform produces a new body. -/
def producesBody (t : TransformationTemplate) : Bool :=
  match t.body_transformation with
  | .kBody _ => true
  | .kMergeExtractorsToBody => true
  | _ => false

/-- Body replacement (lines 680-688): when a new body exists, remove
Content-Length, drain the old body, write the new one and set
Content-Length to its byte length. -/
def finalHeaders (t : TransformationTemplate) (render : String → String)
    (mergedBodyDump : String) (hm0 : List (String × String)) :
    List (String × String) :=
  match maybeBody t render mergedBodyDump with
  | some nb =>
    removeHeader (transformedHeaders t render hm0) "content-length" ++
      [("content-length", toString nb.length)]
  | none => transformedHeaders t render hm0

/-- The body buffer contents after the transform. -/
def finalBody (t : TransformationTemplate) (render : String → String)
    (mergedBodyDump : String) (body0 : String) : String :=
  match maybeBody t render mergedBodyDump with
  | some nb => nb
  | none => body0

/-- Dynamic-metadata writes the transform emits (lines 641-649): for
each entry, render; when non-empty, emit (namespace, key, output) with
the empty namespace defaulted to the filter's canonical namespace. -/
def dynamicMetadataWrites (t : TransformationTemplate)
    (render : String → String) : List (String × String × String) :=
  (t.dynamic_metadata_values.map fun v =>
      ((if v.1 = "" then soloTransformationFilterName else v.1), v.2.1,
        render v.2.2)).filter
    fun v => v.2.2 ≠ ""

/-- Number of `instance.parse` calls the transform makes per message
(lines 558-626): one per headers entry, one per headers_to_append
entry, one per dynamic_metadata_values entry and one for a configured
body template. -/
def transformParseCalls (t : TransformationTemplate) : Nat :=
  t.headers.length + t.headers_to_append.length +
    t.dynamic_metadata_values.length +
    (match t.body_transformation with
     | .kBody _ => 1
     | _ => 0)

/-- Result of one `InjaTransformer::transform` invocation. -/
structure TransformOut where
  headers : List (String × String)
  body : String
  dynamic_meta : List (String × String × String)
  parse_calls : Nat
deriving DecidableEq, Repr

/-- `InjaTransformer::transform` (lines 480-689), restricted to its
message-visible outcome: the mutated header map, the body buffer, the
dynamic-metadata writes, and the per-message template parse count. -/
def injaTransform (t : TransformationTemplate) (render : String → String)
    (mergedBodyDump : String) (hm0 : List (String × String)) (body0 : String) :
    TransformOut :=
  { headers := finalHeaders t render mergedBodyDump hm0
    body := finalBody t render mergedBodyDump body0
    dynamic_meta := dynamicMetadataWrites t render
    parse_calls := transformParseCalls t }

/-! ### Header-map lemmas -/

theorem entriesFor_removeHeader (hm : List (String × String)) (n m : String) :
    entriesFor (removeHeader hm n) m = if n = m then [] else entriesFor hm m := by
  induction hm with
  | nil => by_cases h : n = m <;> simp [removeHeader, entriesFor, h]
  | cons kv rest ih =>
    by_cases h1 : kv.1 = n <;> by_cases h2 : n = m <;> by_cases h3 : kv.1 = m <;>
      simp_all [removeHeader, entriesFor]

theorem entriesFor_append (h1 h2 : List (String × String)) (n : String) :
    entriesFor (h1 ++ h2) n = entriesFor h1 n ++ entriesFor h2 n := by
  induction h1 with
  | nil => simp [entriesFor]
  | cons kv rest ih => by_cases h : kv.1 = n <;> simp [entriesFor, h, ih]

theorem entriesFor_applyHeaderSets_not_mem (sets : List (String × String)) :
    ∀ (hm : List (String × String)) (n : String), n ∉ sets.map (·.1) →
      entriesFor (applyHeaderSets hm sets) n = entriesFor hm n := by
  induction sets with
  | nil => intro hm n _; rfl
  | cons nv rest ih =>
    intro hm n hn
    simp only [List.map_cons, List.mem_cons] at hn
    push_neg at hn
    obtain ⟨hne, hrest⟩ := hn
    simp only [applyHeaderSets]
    rw [ih _ n hrest]
    by_cases he : nv.2 = ""
    · rw [if_pos he, entriesFor_removeHeader, if_neg (Ne.symm hne)]
    · rw [if_neg he, entriesFor_append, entriesFor_removeHeader,
        if_neg (Ne.symm hne)]
      simp [entriesFor, Ne.symm hne]

theorem entriesFor_applyHeaderSets_mem (sets : List (String × String)) :
    ∀ (hm : List (String × String)) (n out : String),
      (sets.map (·.1)).Nodup → (n, out) ∈ sets →
      entriesFor (applyHeaderSets hm sets) n = if out = "" then [] else [out] := by
  induction sets with
  | nil => intro hm n out _ h; simp at h
  | cons nv rest ih =>
    intro hm n out hnd hmem
    obtain ⟨m, o⟩ := nv
    simp only [List.map_cons, List.nodup_cons] at hnd
    obtain ⟨hnotin, hndrest⟩ := hnd
    rcases List.mem_cons.mp hmem with heq | hmem'
    · injection heq with h1 h2
      subst h1
      subst h2
      have hn_not : n ∉ rest.map (·.1) := by simpa using hnotin
      simp only [applyHeaderSets]
      rw [entriesFor_applyHeaderSets_not_mem rest _ n hn_not]
      by_cases he : out = ""
      · simp [he, entriesFor_removeHeader]
      · simp [he, entriesFor_append, entriesFor_removeHeader, entriesFor]
    · have hnn : n ∈ rest.map (·.1) := by
        simpa using List.mem_map_of_mem (·.1) hmem'
      have hne : m ≠ n := fun h => by simp only [h] at hnotin; exact hnotin hnn
      simp only [applyHeaderSets]
      exact ih _ n out hndrest hmem'

theorem entriesFor_applyHeaderRemoves_not_mem (removes : List String) :
    ∀ (hm : List (String × String)) (n : String), n ∉ removes →
      entriesFor (applyHeaderRemoves hm removes) n = entriesFor hm n := by
  induction removes with
  | nil => intro hm n _; rfl
  | cons r rest ih =>
    intro hm n hn
    simp only [List.mem_cons] at hn
    push_neg at hn
    simp only [applyHeaderRemoves]
    rw [ih _ n hn.2, entriesFor_removeHeader, if_neg (Ne.symm hn.1)]

/-- The rendered outputs the append phase will add for a given name:
one per entry with that name whose rendered output is non-empty. -/
def appendOutputsFor : List (String × String) → String → List String
  | [], _ => []
  | kv :: rest, n =>
    if kv.1 = n ∧ kv.2 ≠ "" then kv.2 :: appendOutputsFor rest n
    else appendOutputsFor rest n

theorem appendOutputsFor_eq_nil (appends : List (String × String)) (n : String)
    (h : n ∉ appends.map (·.1)) : appendOutputsFor appends n = [] := by
  induction appends with
  | nil => rfl
  | cons kv rest ih =>
    simp only [List.map_cons, List.mem_cons] at h
    push_neg at h
    simp only [appendOutputsFor]
    rw [if_neg (fun hc => h.1 hc.1.symm), ih h.2]

theorem entriesFor_applyHeaderAppends (appends : List (String × String)) :
    ∀ (hm : List (String × String)) (n : String),
      entriesFor (applyHeaderAppends hm appends) n =
        entriesFor hm n ++ appendOutputsFor appends n := by
  induction appends with
  | nil => intro hm n; simp [applyHeaderAppends, appendOutputsFor]
  | cons kv rest ih =>
    intro hm n
    simp only [applyHeaderAppends, appendOutputsFor]
    rw [ih _ n]
    by_cases he : kv.2 = ""
    · rw [if_pos he, if_neg (fun hc => hc.2 he)]
    · rw [if_neg he, entriesFor_append]
      by_cases hk : kv.1 = n
      · rw [if_pos ⟨hk, he⟩]
        simp [entriesFor, hk]
      · rw [if_neg (fun hc => hk hc.1)]
        simp [entriesFor, hk]

theorem renderedSets_names (t : TransformationTemplate) (render : String → String) :
    (renderedSets t render).map (·.1) = t.headers.map (fun kv => lowerName kv.1) := by
  unfold renderedSets
  rw [List.map_map]
  rfl

theorem renderedAppends_names (t : TransformationTemplate) (render : String → String) :
    (renderedAppends t render).map (·.1) =
      t.headers_to_append.map (fun kv => lowerName kv.1) := by
  unfold renderedAppends
  rw [List.map_map]
  rfl

theorem maybeBody_none_iff (t : TransformationTemplate) (render : String → String)
    (dump : String) :
    maybeBody t render dump = none ↔ producesBody t = false := by
  unfold maybeBody producesBody
  cases t.body_transformation <;> simp

/-- Body replacement leaves every header other than Content-Length
alone. -/
theorem entriesFor_finalHeaders (t : TransformationTemplate)
    (render : String → String) (dump : String) (hm0 : List (String × String))
    (n : String) (h : n = "content-length" → producesBody t = false) :
    entriesFor (finalHeaders t render dump hm0) n =
      entriesFor (transformedHeaders t render hm0) n := by
  unfold finalHeaders
  cases hb : maybeBody t render dump with
  | none => rfl
  | some nb =>
    have hne : n ≠ "content-length" := by
      intro hc
      have := h hc
      rw [← maybeBody_none_iff t render dump] at this
      rw [hb] at this
      exact absurd this (by simp)
    rw [entriesFor_append, entriesFor_removeHeader, if_neg (Ne.symm hne)]
    simp [entriesFor, Ne.symm hne]

/-! ### C1: template parse lifecycle -/

theorem all_map_eq {α β : Type} (f : α → β) (p : β → Bool) (l : List α) :
    (l.map f).all p = l.all (fun x => p (f x)) := by
  induction l with
  | nil => rfl
  | cons a rest ih => simp [List.all_cons, ih]

theorem validate_templates_eq_all (pOk : String → Bool) (t : TransformationTemplate) :
    validate_templates pOk t = (templateSources t).all pOk := by
  unfold validate_templates templateSources
  cases t.body_transformation <;>
    simp [List.all_append, all_map_eq, Bool.and_assoc]

/-- Example configuration for C1: one header template, nothing else. -/
def c1Template : TransformationTemplate :=
  { headers := [("x-a", "T")]
    headers_to_remove := []
    headers_to_append := []
    dynamic_metadata_values := []
    body_transformation := .bodyTransformationNotSet
    parse_body_behavior := .dontParse
    ignore_error_on_parse := false
    advanced_templates := false }

/-- C1 counterexample: a Transformation whose single header template was
validated (and parsed) at config load nevertheless parses one template
source again during every per-message transform (inja_transformer.cc
lines 558-569), contradicting the claim that no template source is
re-parsed during per-message transformation. -/
theorem template_reparse_counterexample :
    (mkInjaTransformer (fun _ => true) c1Template).isSome = true ∧
    (injaTransform c1Template (fun _ => "") "" [] "").parse_calls = 1 := by
  decide

/-- C1 (amended): every configured template source is parsed at config
load for validation and a parse failure there rejects the whole
Transformation; but the compiled forms are discarded, and each transform
invocation re-parses every configured template source (one parse per
headers, headers_to_append and dynamic_metadata_values entry plus one
for a configured body template). -/
theorem template_parse_lifecycle (pOk : String → Bool) (t : TransformationTemplate)
    (render : String → String) (dump : String) (hm0 : List (String × String))
    (body0 : String) :
    ((mkInjaTransformer pOk t).isSome ↔ (templateSources t).all pOk = true) ∧
    (injaTransform t render dump hm0 body0).parse_calls = (templateSources t).length := by
  refine ⟨?_, ?_⟩
  · rw [← validate_templates_eq_all]
    unfold mkInjaTransformer
    split <;> simp_all
  · show transformParseCalls t = _
    unfold transformParseCalls templateSources
    cases t.body_transformation <;> simp <;> omega

/-! ### C5: header set / append multiplicity -/

/-- C5 counterexample configuration: the set header `x-a` is also in
`headers_to_remove`. -/
def c5Template : TransformationTemplate :=
  { headers := [("x-a", "T")]
    headers_to_remove := ["x-a"]
    headers_to_append := []
    dynamic_metadata_values := []
    body_transformation := .bodyTransformationNotSet
    parse_body_behavior := .dontParse
    ignore_error_on_parse := false
    advanced_templates := false }

/-- C5 counterexample: `headers` sets `x-a` to the non-empty rendered
text `"v"`, but because `x-a` is also listed in `headers_to_remove`
(applied after the set phase, lines 664-666), the transformed map holds
zero values for `x-a` — not exactly one as the claim requires. -/
theorem headers_multiplicity_counterexample :
    (fun _ => "v" : String → String) "T" ≠ "" ∧
    entriesFor (injaTransform c5Template (fun _ => "v") "" [] "").headers "x-a" = [] := by
  decide

/-- C5 (amended): after a successful transform, for each `headers` entry
whose lowercased name collides with no other `headers` entry, no
`headers_to_remove` name and no `headers_to_append` name (and is not
`content-length` while a new body is produced), the header map holds
exactly one value with that name — the rendered text — or zero values
when the render is empty.  For names set by no `headers` entry and
removed by no `headers_to_remove` entry (and not `content-length` while
a new body is produced), the prior values are preserved and the
`headers_to_append` entries add one value per non-empty render. -/
theorem headers_multiplicity_spec (t : TransformationTemplate)
    (render : String → String) (mergedBodyDump : String)
    (hm0 : List (String × String)) (body0 : String)
    (hnodup : (t.headers.map (fun kv => lowerName kv.1)).Nodup) :
    (∀ name tmpl, (name, tmpl) ∈ t.headers →
      lowerName name ∉ loweredRemoves t →
      lowerName name ∉ t.headers_to_append.map (fun kv => lowerName kv.1) →
      (lowerName name = "content-length" → producesBody t = false) →
      entriesFor (injaTransform t render mergedBodyDump hm0 body0).headers
          (lowerName name) =
        if render tmpl = "" then [] else [render tmpl]) ∧
    (∀ n, n ∉ t.headers.map (fun kv => lowerName kv.1) →
      n ∉ loweredRemoves t →
      (n = "content-length" → producesBody t = false) →
      entriesFor (injaTransform t render mergedBodyDump hm0 body0).headers n =
        entriesFor hm0 n ++ appendOutputsFor (renderedAppends t render) n ∧
      (entriesFor (injaTransform t render mergedBodyDump hm0 body0).headers n).length =
        (entriesFor hm0 n).length +
          (appendOutputsFor (renderedAppends t render) n).length) := by
  constructor
  · intro name tmpl hmem hrem happ hcl
    have hmemS : (lowerName name, render tmpl) ∈ renderedSets t render :=
      List.mem_map_of_mem _ hmem
    have hndS : ((renderedSets t render).map (·.1)).Nodup := by
      rw [renderedSets_names]
      exact hnodup
    have happS : lowerName name ∉ (renderedAppends t render).map (·.1) := by
      rw [renderedAppends_names]
      exact happ
    show entriesFor (finalHeaders t render mergedBodyDump hm0) (lowerName name) = _
    rw [entriesFor_finalHeaders t render mergedBodyDump hm0 _ hcl]
    unfold transformedHeaders
    rw [entriesFor_applyHeaderAppends, appendOutputsFor_eq_nil _ _ happS,
      List.append_nil, entriesFor_applyHeaderRemoves_not_mem _ _ _ hrem,
      entriesFor_applyHeaderSets_mem _ _ _ _ hndS hmemS]
  · intro n hset hrem hcl
    have hsetS : n ∉ (renderedSets t render).map (·.1) := by
      rw [renderedSets_names]
      exact hset
    have heq : entriesFor (injaTransform t render mergedBodyDump hm0 body0).headers n =
        entriesFor hm0 n ++ appendOutputsFor (renderedAppends t render) n := by
      show entriesFor (finalHeaders t render mergedBodyDump hm0) n = _
      rw [entriesFor_finalHeaders t render mergedBodyDump hm0 _ hcl]
      unfold transformedHeaders
      rw [entriesFor_applyHeaderAppends,
        entriesFor_applyHeaderRemoves_not_mem _ _ _ hrem,
        entriesFor_applyHeaderSets_not_mem _ _ _ hsetS]
    exact ⟨heq, by rw [heq, List.length_append]⟩

/-- Witness configuration for C5. -/
def c5WitnessT : TransformationTemplate :=
  { headers := [("X-Set", "TS")]
    headers_to_remove := ["x-gone"]
    headers_to_append := [("x-app", "TA")]
    dynamic_metadata_values := []
    body_transformation := .bodyTransformationNotSet
    parse_body_behavior := .dontParse
    ignore_error_on_parse := false
    advanced_templates := false }

/-- Witness render function for C5. -/
def c5WitnessRender : String → String := fun s => if s = "TS" then "vs" else "va"

/-- Witness for `headers_multiplicity_spec` at a concrete configuration
and header map. -/
theorem headers_multiplicity_spec_witness :
    (entriesFor (injaTransform c5WitnessT c5WitnessRender "" [("x-app", "old")] "").headers
        (lowerName "X-Set") =
      if c5WitnessRender "TS" = "" then [] else [c5WitnessRender "TS"]) ∧
    (entriesFor (injaTransform c5WitnessT c5WitnessRender "" [("x-app", "old")] "").headers
        "x-app" =
      entriesFor [("x-app", "old")] "x-app" ++
        appendOutputsFor (renderedAppends c5WitnessT c5WitnessRender) "x-app") :=
  ⟨(headers_multiplicity_spec c5WitnessT c5WitnessRender "" [("x-app", "old")] ""
      (by decide)).1 "X-Set" "TS" (by decide) (by decide) (by decide) (by decide),
   ((headers_multiplicity_spec c5WitnessT c5WitnessRender "" [("x-app", "old")] ""
      (by decide)).2 "x-app" (by decide) (by decide) (by decide)).1⟩

/-! ### C6: body replacement and Content-Length -/

/-- C6 counterexample configuration: a `headers` entry rewrites
`Content-Length` while no new body is produced. -/
def c6Template : TransformationTemplate :=
  { headers := [("Content-Length", "T")]
    headers_to_remove := []
    headers_to_append := []
    dynamic_metadata_values := []
    body_transformation := .bodyTransformationNotSet
    parse_body_behavior := .dontParse
    ignore_error_on_parse := false
    advanced_templates := false }

/-- C6 counterexample: no body template or merge mode is configured (no
new body is produced), yet the transform changes the Content-Length
header because a `headers` entry names it — the claim's "otherwise both
... are left unchanged" fails. -/
theorem body_replacement_counterexample :
    producesBody c6Template = false ∧
    entriesFor (injaTransform c6Template (fun _ => "9") ""
        [("content-length", "5")] "hello").headers "content-length" ≠
      entriesFor [("content-length", "5")] "content-length" := by
  decide

/-- C6 (amended): a new body exists exactly when a body template or
`merge_extractors_to_body` is configured; in that case the transform's
body is the new body and Content-Length carries exactly its byte
length.  Otherwise the body buffer is unchanged, and the Content-Length
header too, provided no `headers`, `headers_to_remove` or
`headers_to_append` entry names `content-length`. -/
theorem body_replacement_spec (t : TransformationTemplate)
    (render : String → String) (dump : String) (hm0 : List (String × String))
    (body0 : String) :
    ((maybeBody t render dump).isSome = producesBody t) ∧
    (∀ nb, maybeBody t render dump = some nb →
      (injaTransform t render dump hm0 body0).body = nb ∧
      entriesFor (injaTransform t render dump hm0 body0).headers "content-length" =
        [toString nb.length]) ∧
    (maybeBody t render dump = none →
      (injaTransform t render dump hm0 body0).body = body0 ∧
      ("content-length" ∉ t.headers.map (fun kv => lowerName kv.1) →
        "content-length" ∉ loweredRemoves t →
        "content-length" ∉ t.headers_to_append.map (fun kv => lowerName kv.1) →
        entriesFor (injaTransform t render dump hm0 body0).headers "content-length" =
          entriesFor hm0 "content-length")) := by
  refine ⟨?_, ?_, ?_⟩
  · unfold maybeBody producesBody
    cases t.body_transformation <;> simp
  · intro nb hb
    constructor
    · show finalBody t render dump body0 = nb
      unfold finalBody
      rw [hb]
    · show entriesFor (finalHeaders t render dump hm0) "content-length" = _
      unfold finalHeaders
      rw [hb, entriesFor_append, entriesFor_removeHeader, if_pos rfl]
      simp [entriesFor]
  · intro hb
    constructor
    · show finalBody t render dump body0 = body0
      unfold finalBody
      rw [hb]
    · intro h1 h2 h3
      have h3S : "content-length" ∉ (renderedAppends t render).map (·.1) := by
        rw [renderedAppends_names]
        exact h3
      have h1S : "content-length" ∉ (renderedSets t render).map (·.1) := by
        rw [renderedSets_names]
        exact h1
      show entriesFor (finalHeaders t render dump hm0) "content-length" = _
      unfold finalHeaders
      rw [hb]
      unfold transformedHeaders
      rw [entriesFor_applyHeaderAppends, appendOutputsFor_eq_nil _ _ h3S,
        List.append_nil, entriesFor_applyHeaderRemoves_not_mem _ _ _ h2,
        entriesFor_applyHeaderSets_not_mem _ _ _ h1S]

/-- Witness configuration for C6: a configured body template. -/
def c6WitnessT : TransformationTemplate :=
  { headers := []
    headers_to_remove := []
    headers_to_append := []
    dynamic_metadata_values := []
    body_transformation := .kBody "B"
    parse_body_behavior := .dontParse
    ignore_error_on_parse := false
    advanced_templates := false }

/-- Witness for `body_replacement_spec`: with a body template rendering
`"new"`, the transformed body is `"new"` and Content-Length is its
length. -/
theorem body_replacement_spec_witness :
    (injaTransform c6WitnessT (fun _ => "new") "" [("content-length", "5")] "old").body =
      "new" ∧
    entriesFor (injaTransform c6WitnessT (fun _ => "new") ""
        [("content-length", "5")] "old").headers "content-length" =
      [toString ("new" : String).length] :=
  (body_replacement_spec c6WitnessT (fun _ => "new") "" [("content-length", "5")]
      "old").2.1 "new" rfl

/-! ## Part 4: TransformationFilter state machine

Source: transformation_filter.cc.  Route metadata values are modelled by
a protobuf-Value-like sum; the registry lookup
`config_->getTranformation` (spelling as in the source) is an abstract
function.  The per-direction transformer invocation
(`Transformer::transform`, declared in common/http/filter/transformer.h,
outside this repository slice) is abstracted as a `DoTransform`
parameter that either succeeds with a mutated header map and body or
throws one of the two caught exception kinds.  The ghost counters
`decode_transform_invocations` / `encode_transform_invocations` count
transformer invocations (template evaluations) per direction.

`requestActive()` / `responseActive()` are declared in
transformation_filter.h, which is not under src/.  Modelled from the
spec: §4.6 gives the per-direction states `Checking → Active | Inactive
| Errored` with `Errored` terminal and distinct from `Active`, and the
encodeHeaders comment in the .cc states `is_error() == true implies
responseActive() == false`; so a direction is active iff its
Transformation was selected and the filter is not in the error state. -/

/-- A protobuf `Value`: only the kind structure the filter inspects is
needed.  `nullV` also stands for `KIND_NOT_SET` (the default instance
`Config::Metadata::metadataValue` returns for a missing key). -/
inductive PValue where
  | nullV
  | stringV (s : String)
  | numberV
  | boolV (b : Bool)
  | structV (fields : List (String × PValue))
  | listV

/-- Association-list lookup for metadata/struct fields. -/
def pLookup : List (String × PValue) → String → Option PValue
  | [], _ => none
  | kv :: rest, k => if kv.1 = k then some kv.2 else pLookup rest k

/-- `Router::RouteEntry`: the route's metadata entries under the
transformation filter namespace, and the upstream cluster name. -/
structure RouteEntryModel where
  metadata : List (String × PValue)
  clusterName : String

/-- `Router::Route` (may carry no route entry). -/
structure RouteModel where
  routeEntry : Option RouteEntryModel

/-- `MetadataTransformationKeys::REQUEST_TRANSFORMATION` (from
transformation_well_known_names.h, outside this repository slice). -/
def requestTransformationKey : String := "request_transformation"

/-- `MetadataTransformationKeys::RESPONSE_TRANSFORMATION`. -/
def responseTransformationKey : String := "response_transformation"

/-- Filter configuration: functional-mode flag, the registry lookup
`getTranformation` (source spelling) mapping a template id to a
Transformation reference, and the two buffer caps. -/
structure FilterConfig where
  functional : Bool
  getTranformation : String → Option String
  decoder_buffer_limit : Nat
  encoder_buffer_limit : Nat

/-- The filter's error kinds. -/
inductive FilterError where
  | payloadTooLarge
  | jsonParseError
  | templateParseError
  | transformationNotFound
deriving DecidableEq, Repr

/-- Per-stream filter state (transformation_filter.h members).  Bodies
are byte strings; `header_map_` is the header map the filter currently
points at (set on the active-direction headers callback). -/
structure FilterState where
  error_ : Option FilterError
  error_messgae_ : String
  error_code_ : Nat
  request_body_ : String
  response_body_ : String
  request_transformation_ : Option String
  response_transformation_ : Option String
  current_function_ : Option String
  header_map_ : Option (List (String × String))
  stream_destroyed_ : Bool
  decode_transform_invocations : Nat
  encode_transform_invocations : Nat
deriving Repr

/-- Fresh per-stream state; `retrieveFunction` stored the metadata
accessor's function name before decoding begins. -/
def initialFilterState (cf : Option String) : FilterState :=
  { error_ := none, error_messgae_ := "", error_code_ := 0,
    request_body_ := "", response_body_ := "",
    request_transformation_ := none, response_transformation_ := none,
    current_function_ := cf, header_map_ := none, stream_destroyed_ := false,
    decode_transform_invocations := 0, encode_transform_invocations := 0 }

/-- Effects the filter emits towards the host. -/
inductive FilterEffect where
  | localReply (code : Nat) (body : String)
  | addDecodedData (body : String)
  | addEncodedData (body : String)
deriving DecidableEq, Repr

/-- Outcome of one transformer invocation: success with the mutated
header map and body, or one of the two caught exception kinds
(`nlohmann::json::parse_error` is caught before `std::runtime_error`). -/
inductive TransformOutcome where
  | success (hm : List (String × String)) (newBody : String)
  | jsonParseError (msg : String)
  | runtimeError (msg : String)

/-- Abstract per-direction transformer: Transformation reference,
header map, accumulated body. -/
def DoTransform : Type := String → List (String × String) → String → TransformOutcome

/-- `resetInternalState` (lines 293-296): drain both accumulators. -/
def resetInternalState (st : FilterState) : FilterState :=
  { st with request_body_ := "", response_body_ := "" }

/-- `onDestroy` (lines 19-22). -/
def onDestroy (st : FilterState) : FilterState :=
  { resetInternalState st with stream_destroyed_ := true }

/-- Error-kind message mapping of `error` (lines 301-322). -/
def errorMessageFor : FilterError → String
  | .payloadTooLarge => "payload too large"
  | .jsonParseError => "bad request"
  | .templateParseError => "bad request"
  | .transformationNotFound => "transformation for function not found"

/-- Error-kind status mapping of `error` (lines 301-322). -/
def errorCodeFor : FilterError → Nat
  | .payloadTooLarge => 413
  | .jsonParseError => 400
  | .templateParseError => 400
  | .transformationNotFound => 404

/-- `TransformationFilter::error` (lines 298-330): record the kind,
drain both accumulators, set the message and code, and append a
non-empty detail message. -/
def errorFn (st : FilterState) (e : FilterError) (msg : String) : FilterState :=
  let st := resetInternalState { st with error_ := some e }
  let base := errorMessageFor e
  let final_msg :=
    if msg = "" then base
    else if base = "" then msg else base ++ ": " ++ msg
  { st with error_messgae_ := final_msg, error_code_ := errorCodeFor e }

/-- `requestError` (lines 278-282): local reply through
`Utility::sendLocalReply`, which is suppressed once the stream was
destroyed (solo_filter_utility, outside this slice; spec §5:
"a `destroyed` flag that suppresses any subsequent attempt to send a
local reply"). -/
def requestError (st : FilterState) : List FilterEffect :=
  if st.stream_destroyed_ then [] else [.localReply st.error_code_ st.error_messgae_]

/-- Overwrite-or-insert a header value (`HeaderEntry::value` on an
inline header). -/
def setHeader (hm : List (String × String)) (n v : String) :
    List (String × String) :=
  removeHeader hm n ++ [(n, v)]

/-- `responseError` (lines 284-291): overwrite `:status` with the error
code, remove Content-Type, set Content-Length to the error body length
and emit the error body downstream. -/
def responseError (st : FilterState) : FilterState × List FilterEffect :=
  match st.header_map_ with
  | none => (st, [])
  | some hm =>
    let hm := setHeader hm ":status" (toString st.error_code_)
    let hm := removeHeader hm "content-type"
    let hm := setHeader hm "content-length" (toString st.error_messgae_.length)
    ({ st with header_map_ := some hm }, [.addEncodedData st.error_messgae_])

/-- Modelled from the spec: `requestActive()` is declared in
transformation_filter.h (not under src/); a direction is active iff its
Transformation is selected and the filter is not errored (§4.6). -/
def requestActive (st : FilterState) : Bool :=
  st.request_transformation_.isSome && st.error_.isNone

/-- Modelled from the spec: `responseActive()`, as `requestActive()`. -/
def responseActive (st : FilterState) : Bool :=
  st.response_transformation_.isSome && st.error_.isNone

/-- `getTransformFromRoute` (lines 155-228). -/
def getTransformFromRoute (cfg : FilterConfig) (current_function : Option String)
    (route : Option RouteModel) (key : String) : Option String :=
  match route with
  | none => none
  | some r =>
    match r.routeEntry with
    | none => none
    | some re =>
      let value := (pLookup re.metadata key).getD .nullV
      if cfg.functional = false then
        match value with
        | .stringV s => if s = "" then none else cfg.getTranformation s
        | _ => none
      else
        match current_function with
        | none => none
        | some fname =>
          match value with
          | .structV cluster_fields =>
            match pLookup cluster_fields re.clusterName with
            | none => none
            | some functions_value =>
              match functions_value with
              | .structV functions_fields =>
                match pLookup functions_fields fname with
                | none => none
                | some transformation_value =>
                  match transformation_value with
                  | .stringV s => cfg.getTranformation s
                  | _ => none
              | _ => none
          | _ => none

/-- `checkRequestActive` (lines 136-147). -/
def checkRequestActive (cfg : FilterConfig) (route : Option RouteModel)
    (st : FilterState) : FilterState × List FilterEffect :=
  let rt := getTransformFromRoute cfg st.current_function_ route
    requestTransformationKey
  let st := { st with request_transformation_ := rt }
  if cfg.functional then
    match rt with
    | none =>
      let st := errorFn st .transformationNotFound ""
      (st, requestError st)
    | some _ => (st, [])
  else (st, [])

/-- `checkResponseActive` (lines 149-153). -/
def checkResponseActive (cfg : FilterConfig) (route : Option RouteModel)
    (st : FilterState) : FilterState :=
  { st with response_transformation_ :=
      (getTransformFromRoute cfg st.current_function_ route
        responseTransformationKey) }

/-- `transformRequest` (lines 230-252).  The ghost invocation counter
increments when the transformer is constructed and run. -/
def transformRequest (doT : DoTransform) (st : FilterState) :
    FilterState × List FilterEffect :=
  match st.request_transformation_, st.header_map_ with
  | some tr, some hm =>
    let st := { st with
      decode_transform_invocations := st.decode_transform_invocations + 1 }
    match doT tr hm st.request_body_ with
    | .success hm2 newBody =>
      let st := { st with request_body_ := newBody }
      if newBody.length > 0 then
        ({ st with header_map_ := some hm2 }, [.addDecodedData newBody])
      else
        ({ st with header_map_ := some (removeHeader hm2 "content-type") }, [])
    | .jsonParseError m =>
      let st := errorFn st .jsonParseError m
      (st, requestError st)
    | .runtimeError m =>
      let st := errorFn st .templateParseError m
      (st, requestError st)
  | _, _ => (st, [])

/-- `transformResponse` (lines 254-276). -/
def transformResponse (doT : DoTransform) (st : FilterState) :
    FilterState × List FilterEffect :=
  match st.response_transformation_, st.header_map_ with
  | some tr, some hm =>
    let st := { st with
      encode_transform_invocations := st.encode_transform_invocations + 1 }
    match doT tr hm st.response_body_ with
    | .success hm2 newBody =>
      let st := { st with response_body_ := newBody }
      if newBody.length > 0 then
        ({ st with header_map_ := some hm2 }, [.addEncodedData newBody])
      else
        ({ st with header_map_ := some (removeHeader hm2 "content-type") }, [])
    | .jsonParseError m =>
      let st := errorFn st .jsonParseError m
      responseError st
    | .runtimeError m =>
      let st := errorFn st .templateParseError m
      responseError st
  | _, _ => (st, [])

inductive FilterHeadersStatus where
  | Continue
  | StopIteration
deriving DecidableEq, Repr

inductive FilterDataStatus where
  | Continue
  | StopIterationNoBuffer
deriving DecidableEq, Repr

inductive FilterTrailersStatus where
  | Continue
  | StopIteration
deriving DecidableEq, Repr

/-- `decodeHeaders` (lines 30-53). -/
def decodeHeaders (cfg : FilterConfig) (doT : DoTransform)
    (route : Option RouteModel) (st : FilterState)
    (hm : List (String × String)) (end_stream : Bool) :
    FilterState × FilterHeadersStatus × List FilterEffect :=
  let r := checkRequestActive cfg route st
  let st := r.1
  if st.error_.isSome then (st, .StopIteration, r.2)
  else if !requestActive st then (st, .Continue, r.2)
  else
    let st := { st with header_map_ := some hm }
    if end_stream then
      let t := transformRequest doT st
      (t.1, if t.1.error_.isSome then .StopIteration else .Continue, r.2 ++ t.2)
    else (st, .StopIteration, r.2)

/-- `decodeData` (lines 55-76). -/
def decodeData (cfg : FilterConfig) (doT : DoTransform) (st : FilterState)
    (chunk : String) (end_stream : Bool) :
    FilterState × FilterDataStatus × List FilterEffect :=
  if !requestActive st then (st, .Continue, [])
  else
    let st := { st with request_body_ := st.request_body_ ++ chunk }
    if cfg.decoder_buffer_limit ≠ 0 ∧
        st.request_body_.length > cfg.decoder_buffer_limit then
      let st := errorFn st .payloadTooLarge ""
      (st, .StopIterationNoBuffer, requestError st)
    else if end_stream then
      let t := transformRequest doT st
      (t.1, if t.1.error_.isSome then .StopIterationNoBuffer else .Continue, t.2)
    else (st, .StopIterationNoBuffer, [])

/-- `decodeTrailers` (lines 78-84). -/
def decodeTrailers (doT : DoTransform) (st : FilterState) :
    FilterState × FilterTrailersStatus × List FilterEffect :=
  let r := if requestActive st then transformRequest doT st else (st, [])
  (r.1, if r.1.error_.isSome then .StopIteration else .Continue, r.2)

/-- `encodeHeaders` (lines 86-105). -/
def encodeHeaders (cfg : FilterConfig) (doT : DoTransform)
    (route : Option RouteModel) (st : FilterState)
    (hm : List (String × String)) (end_stream : Bool) :
    FilterState × FilterHeadersStatus × List FilterEffect :=
  let st := checkResponseActive cfg route st
  if !responseActive st then (st, .Continue, [])
  else
    let st := { st with header_map_ := some hm }
    if end_stream then
      let t := transformResponse doT st
      (t.1, .Continue, t.2)
    else (st, .StopIteration, [])

/-- `encodeData` (lines 107-127). -/
def encodeData (cfg : FilterConfig) (doT : DoTransform) (st : FilterState)
    (chunk : String) (end_stream : Bool) :
    FilterState × FilterDataStatus × List FilterEffect :=
  if !responseActive st then (st, .Continue, [])
  else
    let st := { st with response_body_ := st.response_body_ ++ chunk }
    if cfg.encoder_buffer_limit ≠ 0 ∧
        st.response_body_.length > cfg.encoder_buffer_limit then
      let st := errorFn st .payloadTooLarge ""
      let r := responseError st
      (r.1, .Continue, r.2)
    else if end_stream then
      let t := transformResponse doT st
      (t.1, .Continue, t.2)
    else (st, .StopIterationNoBuffer, [])

/-- `encodeTrailers` (lines 129-134). -/
def encodeTrailers (doT : DoTransform) (st : FilterState) :
    FilterState × FilterTrailersStatus × List FilterEffect :=
  let r := if responseActive st then transformResponse doT st else (st, [])
  (r.1, FilterTrailersStatus.Continue, r.2)

/-! ### Stream drivers

The host delivers the headers callback once, then every body chunk in
order through the data callback, marking the last chunk with
end_stream; `StopIteration*` statuses pause downstream forwarding but
do not stop delivery of further chunks to the filter. -/

/-- Feed the request body chunks through `decodeData`; the final chunk
carries end_stream. -/
def feedDecodeChunks (cfg : FilterConfig) (doT : DoTransform) :
    FilterState → List String → FilterState × List FilterEffect
  | st, [] => (st, [])
  | st, [c] =>
    let r := decodeData cfg doT st c true
    (r.1, r.2.2)
  | st, c :: c2 :: rest =>
    let r := decodeData cfg doT st c false
    let rr := feedDecodeChunks cfg doT r.1 (c2 :: rest)
    (rr.1, r.2.2 ++ rr.2)

/-- A request-direction stream: decodeHeaders then the body chunks. -/
def runDecodeStream (cfg : FilterConfig) (doT : DoTransform)
    (route : Option RouteModel) (hm : List (String × String))
    (chunks : List String) (cf : Option String) :
    FilterState × List FilterEffect :=
  let h := decodeHeaders cfg doT route (initialFilterState cf) hm chunks.isEmpty
  let r := feedDecodeChunks cfg doT h.1 chunks
  (r.1, h.2.2 ++ r.2)

/-- Feed the response body chunks through `encodeData`. -/
def feedEncodeChunks (cfg : FilterConfig) (doT : DoTransform) :
    FilterState → List String → FilterState × List FilterEffect
  | st, [] => (st, [])
  | st, [c] =>
    let r := encodeData cfg doT st c true
    (r.1, r.2.2)
  | st, c :: c2 :: rest =>
    let r := encodeData cfg doT st c false
    let rr := feedEncodeChunks cfg doT r.1 (c2 :: rest)
    (rr.1, r.2.2 ++ rr.2)

/-- A response-direction stream: encodeHeaders then the body chunks. -/
def runEncodeStream (cfg : FilterConfig) (doT : DoTransform)
    (route : Option RouteModel) (hm : List (String × String))
    (chunks : List String) (cf : Option String) :
    FilterState × List FilterEffect :=
  let h := encodeHeaders cfg doT route (initialFilterState cf) hm chunks.isEmpty
  let r := feedEncodeChunks cfg doT h.1 chunks
  (r.1, h.2.2 ++ r.2)

/-! ### C2 lemmas -/

theorem decodeData_errored (cfg : FilterConfig) (doT : DoTransform)
    (st : FilterState) (c : String) (es : Bool) (e : FilterError)
    (h : st.error_ = some e) :
    decodeData cfg doT st c es = (st, .Continue, []) := by
  unfold decodeData requestActive
  rw [h]
  simp

theorem encodeData_errored (cfg : FilterConfig) (doT : DoTransform)
    (st : FilterState) (c : String) (es : Bool) (e : FilterError)
    (h : st.error_ = some e) :
    encodeData cfg doT st c es = (st, .Continue, []) := by
  unfold encodeData responseActive
  rw [h]
  simp

theorem feedDecodeChunks_errored (cfg : FilterConfig) (doT : DoTransform) :
    ∀ (chunks : List String) (st : FilterState) (e : FilterError),
      st.error_ = some e → feedDecodeChunks cfg doT st chunks = (st, []) := by
  intro chunks
  induction chunks with
  | nil => intro st e h; rfl
  | cons c rest ih =>
    intro st e h
    cases rest with
    | nil => simp [feedDecodeChunks, decodeData_errored cfg doT st c true e h]
    | cons c2 r2 =>
      simp [feedDecodeChunks, decodeData_errored cfg doT st c false e h,
        ih st e h]

theorem feedEncodeChunks_errored (cfg : FilterConfig) (doT : DoTransform) :
    ∀ (chunks : List String) (st : FilterState) (e : FilterError),
      st.error_ = some e → feedEncodeChunks cfg doT st chunks = (st, []) := by
  intro chunks
  induction chunks with
  | nil => intro st e h; rfl
  | cons c rest ih =>
    intro st e h
    cases rest with
    | nil => simp [feedEncodeChunks, encodeData_errored cfg doT st c true e h]
    | cons c2 r2 =>
      simp [feedEncodeChunks, encodeData_errored cfg doT st c false e h,
        ih st e h]

theorem feedDecodeChunks_overflow (cfg : FilterConfig) (doT : DoTransform) :
    ∀ (chunks : List String) (st : FilterState),
      st.error_ = none → st.request_transformation_.isSome = true →
      st.stream_destroyed_ = false →
      cfg.decoder_buffer_limit ≠ 0 →
      st.request_body_.length ≤ cfg.decoder_buffer_limit →
      st.request_body_.length + (chunks.map String.length).sum >
        cfg.decoder_buffer_limit →
      (feedDecodeChunks cfg doT st chunks).1.error_ = some .payloadTooLarge ∧
      (feedDecodeChunks cfg doT st chunks).1.error_code_ = 413 ∧
      (feedDecodeChunks cfg doT st chunks).1.error_messgae_ = "payload too large" ∧
      (feedDecodeChunks cfg doT st chunks).1.decode_transform_invocations =
        st.decode_transform_invocations ∧
      FilterEffect.localReply 413 "payload too large" ∈
        (feedDecodeChunks cfg doT st chunks).2 := by
  intro chunks
  induction chunks with
  | nil =>
    intro st h1 h2 h3 h4 h5 h6
    simp at h6
    omega
  | cons c rest ih =>
    intro st h1 h2 h3 h4 h5 h6
    have hact : requestActive st = true := by
      simp [requestActive, h1, h2]
    cases rest with
    | nil =>
      have hov : cfg.decoder_buffer_limit ≠ 0 ∧
          ({ st with request_body_ := st.request_body_ ++ c } :
            FilterState).request_body_.length > cfg.decoder_buffer_limit := by
        refine ⟨h4, ?_⟩
        simp only [String.length_append]
        simp at h6
        omega
      simp only [feedDecodeChunks, decodeData, hact, Bool.not_true, if_neg,
        Bool.false_eq_true, not_false_eq_true, if_false]
      rw [if_pos hov]
      simp [errorFn, resetInternalState, errorMessageFor, errorCodeFor,
        requestError, h3]
    | cons c2 r2 =>
      by_cases hov : st.request_body_.length + c.length > cfg.decoder_buffer_limit
      · have hovp : cfg.decoder_buffer_limit ≠ 0 ∧
            ({ st with request_body_ := st.request_body_ ++ c } :
              FilterState).request_body_.length > cfg.decoder_buffer_limit := by
          refine ⟨h4, ?_⟩
          simp only [String.length_append]
          omega
        have herr : (errorFn { st with request_body_ := st.request_body_ ++ c }
            .payloadTooLarge "").error_ = some .payloadTooLarge := rfl
        simp only [feedDecodeChunks, decodeData, hact, Bool.not_true,
          Bool.false_eq_true, not_false_eq_true, if_false]
        rw [if_pos hovp]
        rw [feedDecodeChunks_errored cfg doT (c2 :: r2) _ _ herr]
        simp [errorFn, resetInternalState, errorMessageFor, errorCodeFor,
          requestError, h3]
      · have hno : ¬(cfg.decoder_buffer_limit ≠ 0 ∧
            ({ st with request_body_ := st.request_body_ ++ c } :
              FilterState).request_body_.length > cfg.decoder_buffer_limit) := by
          simp only [String.length_append]
          omega
        simp only [feedDecodeChunks, decodeData, hact, Bool.not_true,
          Bool.false_eq_true, not_false_eq_true, if_false]
        rw [if_neg hno]
        have := ih { st with request_body_ := st.request_body_ ++ c }
          h1 h2 h3 h4
          (by simp only [String.length_append]; omega)
          (by
            simp only [String.length_append]
            simp only [List.map_cons, List.sum_cons] at h6 ⊢
            omega)
        simpa using this

theorem feedEncodeChunks_overflow (cfg : FilterConfig) (doT : DoTransform) :
    ∀ (chunks : List String) (st : FilterState),
      st.error_ = none → st.response_transformation_.isSome = true →
      st.header_map_.isSome = true →
      cfg.encoder_buffer_limit ≠ 0 →
      st.response_body_.length ≤ cfg.encoder_buffer_limit →
      st.response_body_.length + (chunks.map String.length).sum >
        cfg.encoder_buffer_limit →
      (feedEncodeChunks cfg doT st chunks).1.error_ = some .payloadTooLarge ∧
      (feedEncodeChunks cfg doT st chunks).1.error_code_ = 413 ∧
      (feedEncodeChunks cfg doT st chunks).1.error_messgae_ = "payload too large" ∧
      (feedEncodeChunks cfg doT st chunks).1.encode_transform_invocations =
        st.encode_transform_invocations ∧
      FilterEffect.addEncodedData "payload too large" ∈
        (feedEncodeChunks cfg doT st chunks).2 := by
  intro chunks
  induction chunks with
  | nil =>
    intro st h1 h2 h3 h4 h5 h6
    simp at h6
    omega
  | cons c rest ih =>
    intro st h1 h2 h3 h4 h5 h6
    have hact : responseActive st = true := by
      simp [responseActive, h1, h2]
    obtain ⟨hmx, hmapeq⟩ := Option.isSome_iff_exists.mp h3
    cases rest with
    | nil =>
      have hov : cfg.encoder_buffer_limit ≠ 0 ∧
          ({ st with response_body_ := st.response_body_ ++ c } :
            FilterState).response_body_.length > cfg.encoder_buffer_limit := by
        refine ⟨h4, ?_⟩
        simp only [String.length_append]
        simp at h6
        omega
      simp only [feedEncodeChunks, encodeData, hact, Bool.not_true,
        Bool.false_eq_true, not_false_eq_true, if_false]
      rw [if_pos hov]
      simp [errorFn, resetInternalState, errorMessageFor, errorCodeFor,
        responseError, hmapeq]
    | cons c2 r2 =>
      by_cases hov : st.response_body_.length + c.length > cfg.encoder_buffer_limit
      · have hovp : cfg.encoder_buffer_limit ≠ 0 ∧
            ({ st with response_body_ := st.response_body_ ++ c } :
              FilterState).response_body_.length > cfg.encoder_buffer_limit := by
          refine ⟨h4, ?_⟩
          simp only [String.length_append]
          omega
        have herr : ((responseError (errorFn
            { st with response_body_ := st.response_body_ ++ c }
            .payloadTooLarge "")).1).error_ = some .payloadTooLarge := by
          simp [responseError, errorFn, resetInternalState, errorMessageFor,
            errorCodeFor, hmapeq]
        simp only [feedEncodeChunks, encodeData, hact, Bool.not_true,
          Bool.false_eq_true, not_false_eq_true, if_false]
        rw [if_pos hovp]
        rw [feedEncodeChunks_errored cfg doT (c2 :: r2) _ _ herr]
        simp [errorFn, resetInternalState, errorMessageFor, errorCodeFor,
          responseError, hmapeq]
      · have hno : ¬(cfg.encoder_buffer_limit ≠ 0 ∧
            ({ st with response_body_ := st.response_body_ ++ c } :
              FilterState).response_body_.length > cfg.encoder_buffer_limit) := by
          simp only [String.length_append]
          omega
        simp only [feedEncodeChunks, encodeData, hact, Bool.not_true,
          Bool.false_eq_true, not_false_eq_true, if_false]
        rw [if_neg hno]
        have := ih { st with response_body_ := st.response_body_ ++ c }
          h1 h2 h3 h4
          (by simp only [String.length_append]; omega)
          (by
            simp only [String.length_append]
            simp only [List.map_cons, List.sum_cons] at h6 ⊢
            omega)
        simpa using this

theorem decodeHeaders_active (cfg : FilterConfig) (doT : DoTransform)
    (route : Option RouteModel) (hm : List (String × String)) (cf : Option String)
    (tr : String)
    (hroute : getTransformFromRoute cfg cf route requestTransformationKey = some tr) :
    decodeHeaders cfg doT route (initialFilterState cf) hm false =
      ({ initialFilterState cf with
          request_transformation_ := some tr
          header_map_ := some hm }, .StopIteration, []) := by
  have hcf : (initialFilterState cf).current_function_ = cf := rfl
  unfold decodeHeaders checkRequestActive
  rw [hcf, hroute]
  cases hf : cfg.functional <;>
    simp [requestActive, initialFilterState]

theorem encodeHeaders_active (cfg : FilterConfig) (doT : DoTransform)
    (route : Option RouteModel) (hm : List (String × String)) (cf : Option String)
    (tr : String)
    (hroute : getTransformFromRoute cfg cf route responseTransformationKey = some tr) :
    encodeHeaders cfg doT route (initialFilterState cf) hm false =
      ({ initialFilterState cf with
          response_transformation_ := some tr
          header_map_ := some hm }, .StopIteration, []) := by
  have hcf : (initialFilterState cf).current_function_ = cf := rfl
  unfold encodeHeaders checkResponseActive
  rw [hcf, hroute]
  simp [responseActive, initialFilterState]

/-- C2: for either direction of a stream with a configured (non-zero)
buffer cap and a selected Transformation, as soon as the accumulated
body for that direction exceeds the cap, the filter enters the
`PayloadTooLarge` error state (status 413, body "payload too large"),
surfaces it (request side: local reply; response side: in-place error
body), and never invokes that direction's transformer — no template of
that direction's Transformation is evaluated for the stream. -/
theorem buffer_cap_spec (cfg : FilterConfig) (doT : DoTransform)
    (route : Option RouteModel) (hm : List (String × String))
    (chunks : List String) (cf : Option String) (tr : String) :
    (cfg.decoder_buffer_limit ≠ 0 →
      getTransformFromRoute cfg cf route requestTransformationKey = some tr →
      (chunks.map String.length).sum > cfg.decoder_buffer_limit →
      (runDecodeStream cfg doT route hm chunks cf).1.error_ =
          some .payloadTooLarge ∧
        (runDecodeStream cfg doT route hm chunks cf).1.error_code_ = 413 ∧
        (runDecodeStream cfg doT route hm chunks cf).1.error_messgae_ =
          "payload too large" ∧
        (runDecodeStream cfg doT route hm chunks cf).1.decode_transform_invocations
          = 0 ∧
        FilterEffect.localReply 413 "payload too large" ∈
          (runDecodeStream cfg doT route hm chunks cf).2) ∧
    (cfg.encoder_buffer_limit ≠ 0 →
      getTransformFromRoute cfg cf route responseTransformationKey = some tr →
      (chunks.map String.length).sum > cfg.encoder_buffer_limit →
      (runEncodeStream cfg doT route hm chunks cf).1.error_ =
          some .payloadTooLarge ∧
        (runEncodeStream cfg doT route hm chunks cf).1.error_code_ = 413 ∧
        (runEncodeStream cfg doT route hm chunks cf).1.error_messgae_ =
          "payload too large" ∧
        (runEncodeStream cfg doT route hm chunks cf).1.encode_transform_invocations
          = 0 ∧
        FilterEffect.addEncodedData "payload too large" ∈
          (runEncodeStream cfg doT route hm chunks cf).2) := by
  constructor
  · intro hcap hroute hsum
    cases chunks with
    | nil => simp at hsum
    | cons c rest =>
      have h := feedDecodeChunks_overflow cfg doT (c :: rest)
        { initialFilterState cf with
          request_transformation_ := some tr
          header_map_ := some hm }
        rfl rfl rfl hcap (Nat.zero_le _) (by simpa [initialFilterState] using hsum)
      unfold runDecodeStream
      rw [show (c :: rest).isEmpty = false from rfl,
        decodeHeaders_active cfg doT route hm cf tr hroute]
      simpa using h
  · intro hcap hroute hsum
    cases chunks with
    | nil => simp at hsum
    | cons c rest =>
      have h := feedEncodeChunks_overflow cfg doT (c :: rest)
        { initialFilterState cf with
          response_transformation_ := some tr
          header_map_ := some hm }
        rfl rfl rfl hcap (Nat.zero_le _) (by simpa [initialFilterState] using hsum)
      unfold runEncodeStream
      rw [show (c :: rest).isEmpty = false from rfl,
        encodeHeaders_active cfg doT route hm cf tr hroute]
      simpa using h

/-! ### C3: functional-mode TransformationNotFound -/

/-- The template id the functional-mode metadata descent yields (lines
183-224, before the registry lookup): the route metadata value for the
key must be a struct, keyed by the route's cluster name, then by the
current function name, yielding a string template id. -/
def resolveFunctionalId (route : Option RouteModel) (fname : String)
    (key : String) : Option String :=
  match route with
  | none => none
  | some r =>
    match r.routeEntry with
    | none => none
    | some re =>
      match (pLookup re.metadata key).getD .nullV with
      | .structV cluster_fields =>
        match pLookup cluster_fields re.clusterName with
        | none => none
        | some functions_value =>
          match functions_value with
          | .structV functions_fields =>
            match pLookup functions_fields fname with
            | none => none
            | some transformation_value =>
              match transformation_value with
              | .stringV s => some s
              | _ => none
          | _ => none
      | _ => none

theorem getTransformFromRoute_functional (cfg : FilterConfig)
    (hf : cfg.functional = true) (cf : Option String) (route : Option RouteModel)
    (key : String) :
    getTransformFromRoute cfg cf route key =
      (match cf with
       | none => none
       | some f => (resolveFunctionalId route f key).bind cfg.getTranformation) := by
  cases route with
  | none => cases cf <;> rfl
  | some r =>
    obtain ⟨oentry⟩ := r
    cases oentry with
    | none => cases cf <;> rfl
    | some re =>
      unfold getTransformFromRoute resolveFunctionalId
      dsimp only
      rw [if_neg (by simp [hf])]
      cases cf with
      | none => rfl
      | some f =>
        dsimp only
        cases hval : (pLookup re.metadata key).getD .nullV <;> dsimp only <;>
          try rfl
        case structV cluster_fields =>
          cases hcl : pLookup cluster_fields re.clusterName with
          | none => rfl
          | some fv =>
            dsimp only
            cases fv <;> dsimp only <;> try rfl
            case structV functions_fields =>
              cases hfn : pLookup functions_fields f with
              | none => rfl
              | some tv =>
                dsimp only
                cases tv <;> rfl

theorem transformResponse_error_kinds (doT : DoTransform) (st : FilterState) :
    (transformResponse doT st).1.error_ = st.error_ ∨
    (transformResponse doT st).1.error_ = some .jsonParseError ∨
    (transformResponse doT st).1.error_ = some .templateParseError := by
  unfold transformResponse
  rcases hrt : st.response_transformation_ with _ | tr
  · left; rfl
  · rcases hmp : st.header_map_ with _ | hm
    · left; rfl
    · cases hout : doT tr hm st.response_body_ with
      | success hm2 newBody =>
        by_cases hl : newBody.length > 0 <;> simp [hout, hl]
      | jsonParseError m =>
        right; left
        simp only [hout]
        unfold responseError errorFn resetInternalState
        simp
      | runtimeError m =>
        right; right
        simp only [hout]
        unfold responseError errorFn resetInternalState
        simp

theorem encode_error_kinds (cfg : FilterConfig) (doT : DoTransform)
    (route : Option RouteModel) (st : FilterState) (hm : List (String × String))
    (c : String) (es : Bool) (h : st.error_ ≠ some .transformationNotFound) :
    (encodeHeaders cfg doT route st hm es).1.error_ ≠ some .transformationNotFound ∧
    (encodeData cfg doT st c es).1.error_ ≠ some .transformationNotFound ∧
    (encodeTrailers doT st).1.error_ ≠ some .transformationNotFound := by
  refine ⟨?_, ?_, ?_⟩
  · unfold encodeHeaders
    set st1 := checkResponseActive cfg route st with hst1
    have he1 : st1.error_ = st.error_ := rfl
    by_cases ha : responseActive st1
    · simp only [ha]
      by_cases hes : es
      · simp only [hes]
        set st2 := { st1 with header_map_ := some hm } with hst2
        have he2 : st2.error_ = st.error_ := rfl
        rcases transformResponse_error_kinds doT st2 with hk | hk | hk <;>
          simp [hk, he2, he1, h]
      · simp [hes, he1, h]
    · simp [ha, he1, h]
  · unfold encodeData
    by_cases ha : responseActive st
    · simp only [ha]
      set st1 := { st with response_body_ := st.response_body_ ++ c } with hst1
      by_cases hov : cfg.encoder_buffer_limit ≠ 0 ∧
          st1.response_body_.length > cfg.encoder_buffer_limit
      · have hpe : ((responseError (errorFn st1 .payloadTooLarge "")).1).error_ =
            some .payloadTooLarge := by
          unfold responseError errorFn resetInternalState
          cases st.header_map_ <;> simp
        rw [if_pos hov]
        simp [hpe]
      · rw [if_neg hov]
        by_cases hes : es
        · have he1 : st1.error_ = st.error_ := rfl
          rcases transformResponse_error_kinds doT st1 with hk | hk | hk <;>
            simp [hes, hk, he1, h]
        · simp [hes, h]
    · simp [ha, h]
  · unfold encodeTrailers
    by_cases ha : responseActive st
    · simp only [ha]
      rcases transformResponse_error_kinds doT st with hk | hk | hk <;>
        simp [hk, h]
    · simp [ha, h]

theorem decodeHeaders_notfound (cfg : FilterConfig) (doT : DoTransform)
    (route : Option RouteModel) (hm : List (String × String)) (cf : Option String)
    (es : Bool) (hf : cfg.functional = true)
    (hnone : getTransformFromRoute cfg cf route requestTransformationKey = none) :
    decodeHeaders cfg doT route (initialFilterState cf) hm es =
      (errorFn { initialFilterState cf with request_transformation_ := none }
         .transformationNotFound "",
       .StopIteration,
       [.localReply 404 "transformation for function not found"]) := by
  have hcf : (initialFilterState cf).current_function_ = cf := rfl
  unfold decodeHeaders checkRequestActive
  rw [hcf, hnone]
  simp [hf, errorFn, resetInternalState, errorMessageFor, errorCodeFor,
    requestError, initialFilterState]

/-- C3: in functional mode, when the metadata accessor yields no
function name or the route metadata's struct descent (cluster name, then
function name, to a string template id) fails, the request headers
callback raises `TransformationNotFound` — status 404, body
"transformation for function not found", surfaced as a local reply —
with the request transformer never invoked (so before any body byte is
transformed); and no response-path callback can ever produce the
`TransformationNotFound` error. -/
theorem functional_not_found_spec (cfg : FilterConfig) (doT : DoTransform)
    (route : Option RouteModel) (hm : List (String × String)) (cf : Option String)
    (es : Bool) (hf : cfg.functional = true)
    (hmiss : cf = none ∨ ∃ f, cf = some f ∧
      resolveFunctionalId route f requestTransformationKey = none) :
    ((decodeHeaders cfg doT route (initialFilterState cf) hm es).2.1 =
        .StopIteration ∧
      (decodeHeaders cfg doT route (initialFilterState cf) hm es).1.error_ =
        some .transformationNotFound ∧
      (decodeHeaders cfg doT route (initialFilterState cf) hm es).1.error_code_ =
        404 ∧
      (decodeHeaders cfg doT route (initialFilterState cf) hm es).1.error_messgae_ =
        "transformation for function not found" ∧
      (decodeHeaders cfg doT route (initialFilterState cf)
          hm es).1.decode_transform_invocations = 0 ∧
      FilterEffect.localReply 404 "transformation for function not found" ∈
        (decodeHeaders cfg doT route (initialFilterState cf) hm es).2.2) ∧
    (∀ (st : FilterState) (route2 : Option RouteModel)
        (hm2 : List (String × String)) (c : String) (es2 : Bool),
      st.error_ ≠ some .transformationNotFound →
      (encodeHeaders cfg doT route2 st hm2 es2).1.error_ ≠
          some .transformationNotFound ∧
        (encodeData cfg doT st c es2).1.error_ ≠
          some .transformationNotFound ∧
        (encodeTrailers doT st).1.error_ ≠ some .transformationNotFound) := by
  have hnone : getTransformFromRoute cfg cf route requestTransformationKey = none := by
    rw [getTransformFromRoute_functional cfg hf]
    rcases hmiss with rfl | ⟨f, rfl, hres⟩
    · rfl
    · simp [hres]
  constructor
  · rw [decodeHeaders_notfound cfg doT route hm cf es hf hnone]
    exact ⟨rfl, rfl, rfl, rfl, rfl, by simp⟩
  · intro st route2 hm2 c es2 hne
    exact encode_error_kinds cfg doT route2 st hm2 c es2 hne

/-- Witness configuration for C3: functional mode, struct metadata with
no entry for the current function name. -/
def c3Cfg : FilterConfig := ⟨true, fun _ => some "t", 0, 0⟩

/-- Witness route for C3. -/
def c3Route : Option RouteModel :=
  some ⟨some ⟨[("request_transformation",
      .structV [("cluster1", .structV [("g", .stringV "x")])])], "cluster1"⟩⟩

/-- Witness transformer for C3. -/
def c3DoT : DoTransform := fun _ _ _ => .success [] ""

/-- Witness for `functional_not_found_spec`: function name `fn` has no
entry in the route's struct metadata. -/
theorem functional_not_found_spec_witness :
    (decodeHeaders c3Cfg c3DoT c3Route (initialFilterState (some "fn"))
        [] false).2.1 = .StopIteration ∧
      (decodeHeaders c3Cfg c3DoT c3Route (initialFilterState (some "fn"))
        [] false).1.error_ = some .transformationNotFound ∧
      (decodeHeaders c3Cfg c3DoT c3Route (initialFilterState (some "fn"))
        [] false).1.error_code_ = 404 ∧
      (decodeHeaders c3Cfg c3DoT c3Route (initialFilterState (some "fn"))
        [] false).1.error_messgae_ = "transformation for function not found" ∧
      (decodeHeaders c3Cfg c3DoT c3Route (initialFilterState (some "fn"))
        [] false).1.decode_transform_invocations = 0 ∧
      FilterEffect.localReply 404 "transformation for function not found" ∈
        (decodeHeaders c3Cfg c3DoT c3Route (initialFilterState (some "fn"))
          [] false).2.2 :=
  (functional_not_found_spec c3Cfg c3DoT c3Route [] (some "fn") false rfl
    (Or.inr ⟨"fn", rfl, by decide⟩)).1

/-- Witness configuration for C2: caps of 1 byte, direct mode. -/
def c2Cfg : FilterConfig :=
  ⟨false, fun s => if s = "x" then some "t" else none, 1, 1⟩

/-- Witness route for C2: both directions select template id `x`. -/
def c2Route : Option RouteModel :=
  some ⟨some ⟨[("request_transformation", .stringV "x"),
    ("response_transformation", .stringV "x")], "c"⟩⟩

/-- Witness transformer for C2 (never reached). -/
def c2DoT : DoTransform := fun _ _ _ => .success [] ""

/-- Witness for `buffer_cap_spec`: a 2-byte body against a 1-byte cap in
each direction. -/
theorem buffer_cap_spec_witness :
    ((runDecodeStream c2Cfg c2DoT c2Route [] ["ab"] none).1.error_ =
        some .payloadTooLarge ∧
      (runDecodeStream c2Cfg c2DoT c2Route [] ["ab"] none).1.error_code_ = 413 ∧
      (runDecodeStream c2Cfg c2DoT c2Route [] ["ab"] none).1.error_messgae_ =
        "payload too large" ∧
      (runDecodeStream c2Cfg c2DoT c2Route [] ["ab"]
          none).1.decode_transform_invocations = 0 ∧
      FilterEffect.localReply 413 "payload too large" ∈
        (runDecodeStream c2Cfg c2DoT c2Route [] ["ab"] none).2) ∧
    ((runEncodeStream c2Cfg c2DoT c2Route [] ["ab"] none).1.error_ =
        some .payloadTooLarge ∧
      (runEncodeStream c2Cfg c2DoT c2Route [] ["ab"] none).1.error_code_ = 413 ∧
      (runEncodeStream c2Cfg c2DoT c2Route [] ["ab"] none).1.error_messgae_ =
        "payload too large" ∧
      (runEncodeStream c2Cfg c2DoT c2Route [] ["ab"]
          none).1.encode_transform_invocations = 0 ∧
      FilterEffect.addEncodedData "payload too large" ∈
        (runEncodeStream c2Cfg c2DoT c2Route [] ["ab"] none).2) :=
  ⟨(buffer_cap_spec c2Cfg c2DoT c2Route [] ["ab"] none "t").1
      (by decide) (by decide) (by decide),
   (buffer_cap_spec c2Cfg c2DoT c2Route [] ["ab"] none "t").2
      (by decide) (by decide) (by decide)⟩

/-! ### C4: response-path errors surfaced in place -/

theorem entriesFor_setHeader (hm : List (String × String)) (n v m : String) :
    entriesFor (setHeader hm n v) m = if n = m then [v] else entriesFor hm m := by
  unfold setHeader
  rw [entriesFor_append, entriesFor_removeHeader]
  by_cases h : n = m <;> simp [h, entriesFor]

/-- The response-path error surface: the state's header map holds
`:status` = the error code, no Content-Type, Content-Length = the error
body's byte length, and the only emitted effect is the error body sent
downstream (in particular no local reply). -/
def inPlaceErrorSurfaced (st : FilterState) (effs : List FilterEffect) : Prop :=
  ∃ hm, st.header_map_ = some hm ∧
    entriesFor hm ":status" = [toString st.error_code_] ∧
    entriesFor hm "content-type" = [] ∧
    entriesFor hm "content-length" = [toString st.error_messgae_.length] ∧
    effs = [.addEncodedData st.error_messgae_]

theorem responseError_surfaces (st : FilterState) (hm : List (String × String))
    (hmap : st.header_map_ = some hm) :
    inPlaceErrorSurfaced (responseError st).1 (responseError st).2 := by
  unfold responseError
  rw [hmap]
  refine ⟨_, rfl, ?_, ?_, ?_, rfl⟩
  · rw [entriesFor_setHeader, if_neg (by decide), entriesFor_removeHeader,
      if_neg (by decide), entriesFor_setHeader, if_pos rfl]
  · rw [entriesFor_setHeader, if_neg (by decide), entriesFor_removeHeader,
      if_pos rfl]
  · rw [entriesFor_setHeader, if_pos rfl]

theorem transformResponse_surfaces (doT : DoTransform) (st : FilterState)
    (k : FilterError) (hpre : st.error_ = none) :
    (transformResponse doT st).1.error_ = some k →
      inPlaceErrorSurfaced (transformResponse doT st).1
        (transformResponse doT st).2 ∧
      (transformResponse doT st).1.error_code_ = errorCodeFor k := by
  unfold transformResponse
  rcases hrt : st.response_transformation_ with _ | tr
  · intro hk
    have h2 : st.error_ = some k := hk
    rw [hpre] at h2
    exact Option.noConfusion h2
  · rcases hmp : st.header_map_ with _ | hm
    · intro hk
      have h2 : st.error_ = some k := hk
      rw [hpre] at h2
      exact Option.noConfusion h2
    · dsimp only
      cases hout : doT tr hm st.response_body_ with
      | success hm2 newBody =>
        intro hk
        dsimp only at hk
        by_cases hl : newBody.length > 0
        · rw [if_pos hl] at hk
          have h2 : st.error_ = some k := hk
          rw [hpre] at h2
          exact Option.noConfusion h2
        · rw [if_neg hl] at hk
          have h2 : st.error_ = some k := hk
          rw [hpre] at h2
          exact Option.noConfusion h2
      | jsonParseError m =>
        intro hk
        have hk2 : (some FilterError.jsonParseError : Option FilterError) =
            some k := hk
        injection hk2 with hk3
        subst hk3
        exact ⟨responseError_surfaces _ hm rfl, rfl⟩
      | runtimeError m =>
        intro hk
        have hk2 : (some FilterError.templateParseError : Option FilterError) =
            some k := hk
        injection hk2 with hk3
        subst hk3
        exact ⟨responseError_surfaces _ hm rfl, rfl⟩

/-- C4: every error raised on a response-path callback is surfaced in
place: the `:status` header is overwritten with the mapped error code,
Content-Type is removed, Content-Length is set to the error body's byte
length, and the error body is emitted downstream as the only effect (in
particular, no local reply is synthesized). -/
theorem response_error_in_place_spec (cfg : FilterConfig) (doT : DoTransform)
    (route : Option RouteModel) (st : FilterState)
    (hm hm2 : List (String × String)) (c : String) (es : Bool) (k : FilterError)
    (hpre : st.error_ = none) :
    ((encodeHeaders cfg doT route st hm2 es).1.error_ = some k →
      inPlaceErrorSurfaced (encodeHeaders cfg doT route st hm2 es).1
        (encodeHeaders cfg doT route st hm2 es).2.2 ∧
      (encodeHeaders cfg doT route st hm2 es).1.error_code_ = errorCodeFor k) ∧
    (st.header_map_ = some hm →
      (encodeData cfg doT st c es).1.error_ = some k →
      inPlaceErrorSurfaced (encodeData cfg doT st c es).1
        (encodeData cfg doT st c es).2.2 ∧
      (encodeData cfg doT st c es).1.error_code_ = errorCodeFor k) ∧
    ((encodeTrailers doT st).1.error_ = some k →
      inPlaceErrorSurfaced (encodeTrailers doT st).1
        (encodeTrailers doT st).2.2 ∧
      (encodeTrailers doT st).1.error_code_ = errorCodeFor k) := by
  refine ⟨?_, ?_, ?_⟩
  · unfold encodeHeaders
    dsimp only
    by_cases ha : responseActive (checkResponseActive cfg route st)
    · rw [if_neg (by simp [ha])]
      by_cases hes : es
      · rw [if_pos (by simp [hes])]
        intro hk
        exact transformResponse_surfaces doT _ k hpre hk
      · rw [if_neg (by simp [hes])]
        intro hk
        have h2 : st.error_ = some k := hk
        rw [hpre] at h2
        exact Option.noConfusion h2
    · rw [if_pos (by simp [ha])]
      intro hk
      have h2 : st.error_ = some k := hk
      rw [hpre] at h2
      exact Option.noConfusion h2
  · intro hmap
    unfold encodeData
    dsimp only
    rw [hmap]
    by_cases ha : responseActive st
    · rw [if_neg (by simp [ha])]
      by_cases hov : cfg.encoder_buffer_limit ≠ 0 ∧
          (st.response_body_ ++ c).length > cfg.encoder_buffer_limit
      · rw [if_pos hov]
        intro hk
        have hk2 : (some FilterError.payloadTooLarge : Option FilterError) =
            some k := hk
        injection hk2 with hk3
        subst hk3
        exact ⟨responseError_surfaces _ hm rfl, rfl⟩
      · rw [if_neg hov]
        by_cases hes : es
        · rw [if_pos (by simp [hes])]
          intro hk
          exact transformResponse_surfaces doT _ k hpre hk
        · rw [if_neg (by simp [hes])]
          intro hk
          have h2 : st.error_ = some k := hk
          rw [hpre] at h2
          exact Option.noConfusion h2
    · rw [if_pos (by simp [ha])]
      intro hk
      have h2 : st.error_ = some k := hk
      rw [hpre] at h2
      exact Option.noConfusion h2
  · unfold encodeTrailers
    dsimp only
    by_cases ha : responseActive st
    · rw [if_pos (by simp [ha])]
      intro hk
      exact transformResponse_surfaces doT st k hpre hk
    · rw [if_neg (by simp [ha])]
      intro hk
      have h2 : st.error_ = some k := hk
      rw [hpre] at h2
      exact Option.noConfusion h2

/-- Witness configuration for C4. -/
def c4Cfg : FilterConfig := ⟨false, fun _ => some "t", 0, 0⟩

/-- Witness transformer for C4: rendering throws a runtime error. -/
def c4DoT : DoTransform := fun _ _ _ => .runtimeError "boom"

/-- Witness state for C4: response direction active, headers bound. -/
def c4State : FilterState :=
  { initialFilterState none with
    response_transformation_ := some "t"
    header_map_ := some [(":status", "200"), ("content-type", "application/json")] }

/-- Witness for `response_error_in_place_spec`: a template error during
`encodeTrailers` is surfaced in place with status 400. -/
theorem response_error_in_place_spec_witness :
    inPlaceErrorSurfaced (encodeTrailers c4DoT c4State).1
      (encodeTrailers c4DoT c4State).2.2 ∧
    (encodeTrailers c4DoT c4State).1.error_code_ =
      errorCodeFor .templateParseError :=
  (response_error_in_place_spec c4Cfg c4DoT none c4State [] [] "" false
    .templateParseError rfl).2.2 (by decide)

/-! ### C9: direct mode with unusable metadata value is inactive -/

/-- The raw route metadata value for a key, when route, route entry and
entry are all present. -/
def routeMetaValue (route : Option RouteModel) (key : String) : Option PValue :=
  match route with
  | none => none
  | some r =>
    match r.routeEntry with
    | none => none
    | some re => pLookup re.metadata key

theorem getTransformFromRoute_direct_none (cfg : FilterConfig)
    (hf : cfg.functional = false) (cf : Option String)
    (route : Option RouteModel) (key : String)
    (hval : ∀ s, routeMetaValue route key = some (.stringV s) → s = "") :
    getTransformFromRoute cfg cf route key = none := by
  cases route with
  | none => rfl
  | some r =>
    obtain ⟨oentry⟩ := r
    cases oentry with
    | none => rfl
    | some re =>
      unfold getTransformFromRoute
      dsimp only
      rw [if_pos hf]
      have hval2 : ∀ s, pLookup re.metadata key = some (.stringV s) → s = "" := by
        intro s h
        exact hval s (by simpa [routeMetaValue] using h)
      cases hlk : pLookup re.metadata key with
      | none => rfl
      | some v =>
        rw [Option.getD_some]
        cases v <;> try rfl
        case stringV s =>
          show (if s = "" then none else cfg.getTranformation s) = none
          rw [if_pos (hval2 s hlk)]

/-- C9: in direct (non-functional) mode, when the route metadata value
for a direction's key is absent, an empty string, or not a string-kind
value, that direction records no Transformation and every filter
callback passes through with Continue, leaving state, headers and body
untouched and entering no error state. -/
theorem direct_mode_inactive_spec (cfg : FilterConfig) (doT : DoTransform)
    (route : Option RouteModel) (st : FilterState) (hm : List (String × String))
    (c : String) (es : Bool)
    (hf : cfg.functional = false)
    (hreqv : ∀ s, routeMetaValue route requestTransformationKey =
      some (.stringV s) → s = "")
    (hrespv : ∀ s, routeMetaValue route responseTransformationKey =
      some (.stringV s) → s = "")
    (herr : st.error_ = none) :
    decodeHeaders cfg doT route st hm es =
      ({ st with request_transformation_ := none }, .Continue, []) ∧
    (st.request_transformation_ = none →
      decodeData cfg doT st c es = (st, .Continue, []) ∧
      decodeTrailers doT st = (st, .Continue, [])) ∧
    encodeHeaders cfg doT route st hm es =
      ({ st with response_transformation_ := none }, .Continue, []) ∧
    (st.response_transformation_ = none →
      encodeData cfg doT st c es = (st, .Continue, []) ∧
      encodeTrailers doT st = (st, .Continue, [])) := by
  have hreqnone := getTransformFromRoute_direct_none cfg hf st.current_function_
    route requestTransformationKey hreqv
  have hrespnone := getTransformFromRoute_direct_none cfg hf st.current_function_
    route responseTransformationKey hrespv
  refine ⟨?_, fun hreq => ⟨?_, ?_⟩, ?_, fun hresp => ⟨?_, ?_⟩⟩
  · simp [decodeHeaders, checkRequestActive, hreqnone, hf, requestActive, herr]
  · simp [decodeData, requestActive, hreq]
  · simp [decodeTrailers, requestActive, hreq, herr]
  · simp [encodeHeaders, checkResponseActive, hrespnone, responseActive, herr]
  · simp [encodeData, responseActive, hresp]
  · simp [encodeTrailers, responseActive, hresp, herr]

/-- Witness configuration for C9. -/
def c9Cfg : FilterConfig := ⟨false, fun _ => some "t", 0, 0⟩

/-- Witness route for C9: the request key holds a struct (non-string
kind), the response key is absent. -/
def c9Route : Option RouteModel :=
  some ⟨some ⟨[("request_transformation", .structV [])], "c"⟩⟩

/-- Witness transformer for C9 (never reached). -/
def c9DoT : DoTransform := fun _ _ _ => .success [] ""

/-- Witness for `direct_mode_inactive_spec`. -/
theorem direct_mode_inactive_spec_witness :
    decodeHeaders c9Cfg c9DoT c9Route (initialFilterState none) [("a", "b")] false =
      ({ initialFilterState none with request_transformation_ := none },
        .Continue, []) ∧
    ((initialFilterState none).request_transformation_ = none →
      decodeData c9Cfg c9DoT (initialFilterState none) "x" false =
        (initialFilterState none, .Continue, []) ∧
      decodeTrailers c9DoT (initialFilterState none) =
        (initialFilterState none, .Continue, [])) ∧
    encodeHeaders c9Cfg c9DoT c9Route (initialFilterState none) [("a", "b")] false =
      ({ initialFilterState none with response_transformation_ := none },
        .Continue, []) ∧
    ((initialFilterState none).response_transformation_ = none →
      encodeData c9Cfg c9DoT (initialFilterState none) "x" false =
        (initialFilterState none, .Continue, []) ∧
      encodeTrailers c9DoT (initialFilterState none) =
        (initialFilterState none, .Continue, [])) :=
  direct_mode_inactive_spec c9Cfg c9DoT c9Route (initialFilterState none)
    [("a", "b")] "x" false rfl
    (by intro s h; simp [routeMetaValue, c9Route, pLookup, requestTransformationKey] at h)
    (by intro s h; simp [routeMetaValue, c9Route, pLookup, responseTransformationKey] at h)
    rfl

/-! ### C10: error transitions drain both accumulators -/

theorem transformRequest_drained (doT : DoTransform) (st : FilterState)
    (hpre : st.error_ = none) :
    (transformRequest doT st).1.error_.isSome = true →
      (transformRequest doT st).1.request_body_ = "" ∧
      (transformRequest doT st).1.response_body_ = "" := by
  unfold transformRequest
  rcases hrt : st.request_transformation_ with _ | tr
  · intro hk
    have h2 : st.error_.isSome = true := hk
    rw [hpre] at h2
    simp at h2
  · rcases hmp : st.header_map_ with _ | hm
    · intro hk
      have h2 : st.error_.isSome = true := hk
      rw [hpre] at h2
      simp at h2
    · dsimp only
      cases hout : doT tr hm st.request_body_ with
      | success hm2 newBody =>
        intro hk
        dsimp only at hk
        by_cases hl : newBody.length > 0
        · rw [if_pos hl] at hk
          have h2 : st.error_.isSome = true := hk
          rw [hpre] at h2
          simp at h2
        · rw [if_neg hl] at hk
          have h2 : st.error_.isSome = true := hk
          rw [hpre] at h2
          simp at h2
      | jsonParseError m => intro _; exact ⟨rfl, rfl⟩
      | runtimeError m => intro _; exact ⟨rfl, rfl⟩

theorem transformResponse_drained (doT : DoTransform) (st : FilterState)
    (hpre : st.error_ = none) :
    (transformResponse doT st).1.error_.isSome = true →
      (transformResponse doT st).1.request_body_ = "" ∧
      (transformResponse doT st).1.response_body_ = "" := by
  unfold transformResponse
  rcases hrt : st.response_transformation_ with _ | tr
  · intro hk
    have h2 : st.error_.isSome = true := hk
    rw [hpre] at h2
    simp at h2
  · rcases hmp : st.header_map_ with _ | hm
    · intro hk
      have h2 : st.error_.isSome = true := hk
      rw [hpre] at h2
      simp at h2
    · dsimp only
      cases hout : doT tr hm st.response_body_ with
      | success hm2 newBody =>
        intro hk
        dsimp only at hk
        by_cases hl : newBody.length > 0
        · rw [if_pos hl] at hk
          have h2 : st.error_.isSome = true := hk
          rw [hpre] at h2
          simp at h2
        · rw [if_neg hl] at hk
          have h2 : st.error_.isSome = true := hk
          rw [hpre] at h2
          simp at h2
      | jsonParseError m => intro _; exact ⟨rfl, rfl⟩
      | runtimeError m => intro _; exact ⟨rfl, rfl⟩

/-- C10: `error` drains both accumulators (whatever direction raised
it) before any surfacing runs, so every callback that transitions the
filter into an error state leaves both accumulators at length zero; the
same draining happens on stream destroy. -/
theorem error_drain_spec :
    (∀ (st : FilterState) (e : FilterError) (msg : String),
      (errorFn st e msg).request_body_ = "" ∧
      (errorFn st e msg).response_body_ = "") ∧
    (∀ st : FilterState, (onDestroy st).request_body_ = "" ∧
      (onDestroy st).response_body_ = "" ∧
      (onDestroy st).stream_destroyed_ = true) ∧
    (∀ (cfg : FilterConfig) (doT : DoTransform) (route : Option RouteModel)
        (st : FilterState) (hm : List (String × String)) (es : Bool),
      st.error_ = none →
      ((decodeHeaders cfg doT route st hm es).1.error_.isSome = true →
        (decodeHeaders cfg doT route st hm es).1.request_body_ = "" ∧
        (decodeHeaders cfg doT route st hm es).1.response_body_ = "") ∧
      ((encodeHeaders cfg doT route st hm es).1.error_.isSome = true →
        (encodeHeaders cfg doT route st hm es).1.request_body_ = "" ∧
        (encodeHeaders cfg doT route st hm es).1.response_body_ = "")) ∧
    (∀ (cfg : FilterConfig) (doT : DoTransform) (st : FilterState) (c : String)
        (es : Bool),
      st.error_ = none →
      ((decodeData cfg doT st c es).1.error_.isSome = true →
        (decodeData cfg doT st c es).1.request_body_ = "" ∧
        (decodeData cfg doT st c es).1.response_body_ = "") ∧
      ((encodeData cfg doT st c es).1.error_.isSome = true →
        (encodeData cfg doT st c es).1.request_body_ = "" ∧
        (encodeData cfg doT st c es).1.response_body_ = "")) ∧
    (∀ (doT : DoTransform) (st : FilterState),
      st.error_ = none →
      ((decodeTrailers doT st).1.error_.isSome = true →
        (decodeTrailers doT st).1.request_body_ = "" ∧
        (decodeTrailers doT st).1.response_body_ = "") ∧
      ((encodeTrailers doT st).1.error_.isSome = true →
        (encodeTrailers doT st).1.request_body_ = "" ∧
        (encodeTrailers doT st).1.response_body_ = "")) := by
  refine ⟨fun st e msg => ⟨rfl, rfl⟩, fun st => ⟨rfl, rfl, rfl⟩, ?_, ?_, ?_⟩
  · intro cfg doT route st hm es herr
    constructor
    · unfold decodeHeaders checkRequestActive
      dsimp only
      cases hrt : getTransformFromRoute cfg st.current_function_ route
          requestTransformationKey with
      | none =>
        by_cases hfn : cfg.functional
        · rw [if_pos hfn]
          intro _
          exact ⟨rfl, rfl⟩
        · rw [if_neg hfn]
          dsimp only
          rw [if_neg (by simp [herr]),
            if_pos (by simp [requestActive])]
          intro hk
          have h2 : st.error_.isSome = true := hk
          rw [herr] at h2
          simp at h2
      | some tr =>
        have hbranch : (if cfg.functional = true then
            ((match (some tr : Option String) with
              | none => (errorFn { st with request_transformation_ := none }
                  .transformationNotFound "",
                requestError (errorFn
                  { st with request_transformation_ := none }
                  .transformationNotFound ""))
              | some _ => ({ st with request_transformation_ := some tr }, []))
              : FilterState × List FilterEffect)
            else ({ st with request_transformation_ := some tr }, [])) =
            ({ st with request_transformation_ := some tr }, []) := by
          by_cases hfn : cfg.functional <;> simp [hfn]
        rw [hbranch]
        dsimp only
        rw [if_neg (by simp [herr]),
          if_neg (by simp [requestActive, herr])]
        by_cases hes : es
        · rw [if_pos (by simp [hes])]
          intro hk
          exact transformRequest_drained doT _ herr hk
        · rw [if_neg (by simp [hes])]
          intro hk
          have h2 : st.error_.isSome = true := hk
          rw [herr] at h2
          simp at h2
    · unfold encodeHeaders
      dsimp only
      by_cases ha : responseActive (checkResponseActive cfg route st)
      · rw [if_neg (by simp [ha])]
        by_cases hes : es
        · rw [if_pos (by simp [hes])]
          intro hk
          exact transformResponse_drained doT _ herr hk
        · rw [if_neg (by simp [hes])]
          intro hk
          have h2 : st.error_.isSome = true := hk
          rw [herr] at h2
          simp at h2
      · rw [if_pos (by simp [ha])]
        intro hk
        have h2 : st.error_.isSome = true := hk
        rw [herr] at h2
        simp at h2
  · intro cfg doT st c es herr
    constructor
    · unfold decodeData
      dsimp only
      by_cases ha : requestActive st
      · rw [if_neg (by simp [ha])]
        by_cases hov : cfg.decoder_buffer_limit ≠ 0 ∧
            (st.request_body_ ++ c).length > cfg.decoder_buffer_limit
        · rw [if_pos hov]
          intro _
          exact ⟨rfl, rfl⟩
        · rw [if_neg hov]
          by_cases hes : es
          · rw [if_pos (by simp [hes])]
            intro hk
            exact transformRequest_drained doT _ herr hk
          · rw [if_neg (by simp [hes])]
            intro hk
            have h2 : st.error_.isSome = true := hk
            rw [herr] at h2
            simp at h2
      · rw [if_pos (by simp [ha])]
        intro hk
        have h2 : st.error_.isSome = true := hk
        rw [herr] at h2
        simp at h2
    · unfold encodeData
      dsimp only
      by_cases ha : responseActive st
      · rw [if_neg (by simp [ha])]
        by_cases hov : cfg.encoder_buffer_limit ≠ 0 ∧
            (st.response_body_ ++ c).length > cfg.encoder_buffer_limit
        · rw [if_pos hov]
          rcases hmp : st.header_map_ with _ | hm2 <;>
            exact fun _ => ⟨rfl, rfl⟩
        · rw [if_neg hov]
          by_cases hes : es
          · rw [if_pos (by simp [hes])]
            intro hk
            exact transformResponse_drained doT _ herr hk
          · rw [if_neg (by simp [hes])]
            intro hk
            have h2 : st.error_.isSome = true := hk
            rw [herr] at h2
            simp at h2
      · rw [if_pos (by simp [ha])]
        intro hk
        have h2 : st.error_.isSome = true := hk
        rw [herr] at h2
        simp at h2
  · intro doT st herr
    constructor
    · unfold decodeTrailers
      dsimp only
      by_cases ha : requestActive st
      · rw [if_pos (by simp [ha])]
        intro hk
        exact transformRequest_drained doT st herr hk
      · rw [if_neg (by simp [ha])]
        intro hk
        have h2 : st.error_.isSome = true := hk
        rw [herr] at h2
        simp at h2
    · unfold encodeTrailers
      dsimp only
      by_cases ha : responseActive st
      · rw [if_pos (by simp [ha])]
        intro hk
        exact transformResponse_drained doT st herr hk
      · rw [if_neg (by simp [ha])]
        intro hk
        have h2 : st.error_.isSome = true := hk
        rw [herr] at h2
        simp at h2

/-- Witness configuration for C10. -/
def c10Cfg : FilterConfig := ⟨false, fun _ => some "t", 1, 1⟩

/-- Witness transformer for C10 (never reached). -/
def c10DoT : DoTransform := fun _ _ _ => .success [] ""

/-- Witness state for C10: active request direction with bytes already
buffered in both accumulators. -/
def c10State : FilterState :=
  { initialFilterState none with
    request_transformation_ := some "t"
    request_body_ := "a"
    response_body_ := "zz" }

/-- Witness for `error_drain_spec`: a request-side overflow drains both
accumulators. -/
theorem error_drain_spec_witness :
    (decodeData c10Cfg c10DoT c10State "bb" false).1.request_body_ = "" ∧
    (decodeData c10Cfg c10DoT c10State "bb" false).1.response_body_ = "" :=
  (error_drain_spec.2.2.2.1 c10Cfg c10DoT c10State "bb" false rfl).1 (by decide)

end TransformationProof
